import Mathlib

/-!
# Geodetic / ECEF / topocentric transforms (`src/eigen3/main.cpp`)

A shallow embedding of the transform engine over the real numbers: `double`
values are read as reals, `M_PI` as `Real.pi`, `std::sin`, `std::cos`,
`std::atan`, `std::sqrt` as the real functions, `std::hypot(x, y)` as
`sqrt (x * x + y * y)` and `std::atan2(y, x)` as the argument of `x + i y`.
In-place mutation of a point becomes a function returning the new point.
Division is the total real division; where a claim is about a divisor being
non-zero, the divisors are listed explicitly.
-/

namespace Offload

/-! ## Constants and numeric helpers -/

/-- The constant `radian = M_PI / 180.`. -/
noncomputable def radian : ℝ := Real.pi / 180

/-- The constant `degree = 1 / radian`. -/
noncomputable def degree : ℝ := 1 / radian

/-- The axis tags `Ox`, `Oy`, `Oz` (`Orientation< 0 >`, `< 1 >`, `< 2 >`). -/
inductive Orientation where
  | Ox
  | Oy
  | Oz
  deriving DecidableEq, Repr

open Orientation

/-- The scalar `hypot` of `<cmath>`. -/
noncomputable def hypot (x y : ℝ) : ℝ := Real.sqrt (x * x + y * y)

/-- The scalar `atan2( y, x )` of `<cmath>`: the angle in `(-π, π]` of the vector `(x, y)`. -/
noncomputable def atan2 (y x : ℝ) : ℝ := Complex.arg ⟨x, y⟩

/-- A batch of `n` reals (one column of `Eigen::Array< Scalar, Eigen::Dynamic, 3 >`). -/
abbrev Batch (n : ℕ) : Type := Fin n → ℝ

/-- The batch overloads of `hypot`: `sqrt( x * x + y * y )`, coefficient by coefficient. -/
noncomputable def hypotArray {n : ℕ} (x y : Batch n) : Batch n :=
  fun i => Real.sqrt (x i * x i + y i * y i)

/-- The batch `atan2`: `phi = atan( y / x )`, then
`select( x < 0, select( y < 0, phi - M_PI, phi + M_PI ), phi )`. -/
noncomputable def atan2Array {n : ℕ} (y x : Batch n) : Batch n :=
  fun i =>
    let phi := Real.arctan (y i / x i)
    if x i < 0 then (if y i < 0 then phi - Real.pi else phi + Real.pi) else phi

/-! ## Points -/

/-- The struct `Point3< Scalar >`: three stored coordinates. -/
structure Point3 (α : Type) where
  x : α
  y : α
  z : α

namespace Point3

variable {α : Type}

/-- The factory `Point3::create( x, y, z )`. -/
def create (x y z : α) : Point3 α := ⟨x, y, z⟩

/-- The accessor `get( o )`, read. -/
def get (p : Point3 α) : Orientation → α
  | Ox => p.x
  | Oy => p.y
  | Oz => p.z

/-- The accessor `get( o ) = v`, write. -/
def set (p : Point3 α) (o : Orientation) (v : α) : Point3 α :=
  match o with
  | Ox => { p with x := v }
  | Oy => { p with y := v }
  | Oz => { p with z := v }

/-- The method `swap( o1, o2 )`: `std::swap( get( o1 ), get( o2 ) )`. -/
def swap (p : Point3 α) (o1 o2 : Orientation) : Point3 α :=
  let tmp := p.get o1
  let p1 := p.set o1 (p.get o2)
  p1.set o2 tmp

/-- The scalar method `rotate( o1, o2, cos, sin )`: both operands are copied first. -/
def rotate [Add α] [Mul α] [Neg α] (p : Point3 α) (o1 o2 : Orientation) (cos sin : α) :
    Point3 α :=
  let v1 := p.get o1
  let v2 := p.get o2
  let p1 := p.set o1 (cos * v1 + sin * v2)
  p1.set o2 (-sin * v1 + cos * v2)

/-- The `i`-th point of a batch. -/
def row {n : ℕ} (p : Point3 (Batch n)) (i : Fin n) : Point3 ℝ := ⟨p.x i, p.y i, p.z i⟩

/-- The batch method `swap( o1, o2 )`: the two columns are exchanged. -/
def swapArray {n : ℕ} (p : Point3 (Batch n)) (o1 o2 : Orientation) : Point3 (Batch n) :=
  let tmp := p.get o1
  let p1 := p.set o1 (p.get o2)
  p1.set o2 tmp

/-- The batch method `rotate( o1, o2, cos, sin )`: `v1` is an evaluated copy of column `o1`,
`v2` is a view of column `o2`, read from the storage at the time of each assignment. -/
def rotateArray {n : ℕ} (p : Point3 (Batch n)) (o1 o2 : Orientation) (cos sin : ℝ) :
    Point3 (Batch n) :=
  let v1 := p.get o1
  let p1 := p.set o1 (fun i => cos * v1 i + sin * p.get o2 i)
  p1.set o2 (fun i => -sin * v1 i + cos * p1.get o2 i)

end Point3

/-! ## Config and Georef -/

/-- The struct `Config`. -/
structure Config where
  origin : Point3 ℝ
  scale_factor : ℝ

/-- The factory `Config::create()`: origin `(0, 0, 0)`, scale `0.75`. -/
noncomputable def Config.create : Config :=
  { origin := Point3.create 0 0 0, scale_factor := 0.75 }

/-- The struct `Georef`. -/
structure Georef where
  origin : Point3 ℝ
  sin_lon0 : ℝ
  cos_lon0 : ℝ
  sin_lat0 : ℝ
  cos_lat0 : ℝ
  scale_factor : ℝ
  major_radius : ℝ
  minor_radius : ℝ
  polar_radius : ℝ
  normal_radius : ℝ
  flattening : ℝ
  eccentricity1 : ℝ
  eccentricity2 : ℝ

namespace Georef

/-- The factory `Georef::create( config )`. -/
noncomputable def create (config : Config) : Georef :=
  let longitude := config.origin.x * radian
  let latitude := config.origin.y * radian
  let flattening : ℝ := 1 / 298.257223563
  let major_radius := 6378137 / config.scale_factor
  let minor_radius := major_radius * (1 - flattening)
  let polar_radius := major_radius / (1 - flattening)
  let eccentricity1 := flattening * (2 - flattening)
  let eccentricity2 := eccentricity1 / (1 - eccentricity1)
  let sin_lon0 := Real.sin longitude
  let cos_lon0 := Real.cos longitude
  let sin_lat0 := Real.sin latitude
  let cos_lat0 := Real.cos latitude
  let normal_radius := polar_radius / Real.sqrt (1 + eccentricity2 * cos_lat0 * cos_lat0)
  { origin := config.origin
    sin_lon0 := sin_lon0
    cos_lon0 := cos_lon0
    sin_lat0 := sin_lat0
    cos_lat0 := cos_lat0
    scale_factor := config.scale_factor
    major_radius := major_radius
    minor_radius := minor_radius
    polar_radius := polar_radius
    normal_radius := normal_radius
    flattening := flattening
    eccentricity1 := eccentricity1
    eccentricity2 := eccentricity2 }

/-- The scalar `geod2ecef` (projection epsg:4326 to epsg:4978). -/
noncomputable def geod2ecef (g : Georef) (object : Point3 ℝ) : Point3 ℝ :=
  let longitude := (g.origin.x + (object.x - g.origin.x) * g.scale_factor) * radian
  let latitude := (g.origin.y + (object.y - g.origin.y) * g.scale_factor) * radian
  let cos_lat := Real.cos latitude
  let sin_lat := Real.sin latitude
  let normal := g.polar_radius / Real.sqrt (1 + g.eccentricity2 * cos_lat * cos_lat)
  let hplane := (normal + object.z) * cos_lat
  let object1 := { object with x := hplane * Real.cos longitude }
  let object2 := { object1 with y := hplane * Real.sin longitude }
  { object2 with z := (object2.z + normal * (1 - g.eccentricity1)) * sin_lat }

/-- The scalar `ecef2geod` (projection epsg:4978 to epsg:4326). -/
noncomputable def ecef2geod (g : Georef) (object : Point3 ℝ) : Point3 ℝ :=
  let hplane := hypot object.x object.y
  let tangent0 := object.z / hplane *
    (1 + (g.eccentricity2 * g.minor_radius) / hypot hplane object.z)
  let latitude0 := Real.arctan (tangent0 * (1 - g.flattening))
  let tangent1 := (object.z + (g.eccentricity2 * g.minor_radius) * Real.sin latitude0 ^ 3) /
    (hplane - (g.eccentricity1 * g.major_radius) * Real.cos latitude0 ^ 3)
  let latitude1 := Real.arctan (tangent1 * (1 - g.flattening))
  let tangent := (object.z + (g.eccentricity2 * g.minor_radius) * Real.sin latitude1 ^ 3) /
    (hplane - (g.eccentricity1 * g.major_radius) * Real.cos latitude1 ^ 3)
  let longitude := atan2 object.y object.x
  let latitude := Real.arctan tangent
  let cos_lat := if latitude = Real.pi / 2 then 1 else Real.cos latitude
  let sin_lat := if latitude = 0 then 1 else Real.sin latitude
  let normal := g.polar_radius / Real.sqrt (1 + g.eccentricity2 * cos_lat * cos_lat)
  let object1 := { object with x := g.origin.x + (longitude * degree - g.origin.x) / g.scale_factor }
  let object2 := { object1 with y := g.origin.y + (latitude * degree - g.origin.y) / g.scale_factor }
  { object2 with
    z := if |tangent| ≤ 1 then hplane / cos_lat - normal
         else object2.z / sin_lat - normal * (1 - g.eccentricity1) }

/-- The scalar `ecef2topo` (projection epsg:4978 to epsg:5819). -/
def ecef2topo (g : Georef) (object : Point3 ℝ) : Point3 ℝ :=
  let object1 := { object with z := object.z + g.eccentricity1 * g.normal_radius * g.sin_lat0 }
  let object2 := object1.rotate Ox Oy g.cos_lon0 g.sin_lon0
  let object3 := object2.rotate Oz Ox g.sin_lat0 g.cos_lat0
  let object4 := object3.swap Ox Oy
  let object5 := { object4 with y := -object4.y }
  { object5 with z := object5.z - (g.normal_radius + g.origin.z) }

/-- The scalar `topo2ecef` (projection epsg:5819 to epsg:4978). -/
def topo2ecef (g : Georef) (object : Point3 ℝ) : Point3 ℝ :=
  let object1 := { object with z := object.z + (g.normal_radius + g.origin.z) }
  let object2 := { object1 with y := -object1.y }
  let object3 := object2.swap Ox Oy
  let object4 := object3.rotate Oz Ox g.sin_lat0 (-g.cos_lat0)
  let object5 := object4.rotate Ox Oy g.cos_lon0 (-g.sin_lon0)
  { object5 with z := object5.z - g.eccentricity1 * g.normal_radius * g.sin_lat0 }

/-! ## The batch instantiation of the four transforms

Every arithmetic operation on columns is coefficient-wise. Expressions bound with `auto`
and not passed through `eval` stay lazy: they read the storage when the statement that
consumes them is executed. -/

/-- The batch `geod2ecef`. -/
noncomputable def geod2ecefArray {n : ℕ} (g : Georef) (object : Point3 (Batch n)) :
    Point3 (Batch n) :=
  let longitude : Batch n :=
    fun i => (g.origin.x + (object.x i - g.origin.x) * g.scale_factor) * radian
  let latitude : Batch n :=
    fun i => (g.origin.y + (object.y i - g.origin.y) * g.scale_factor) * radian
  let cos_lat : Batch n := fun i => Real.cos (latitude i)
  let sin_lat : Batch n := fun i => Real.sin (latitude i)
  let normal : Batch n :=
    fun i => g.polar_radius / Real.sqrt (1 + g.eccentricity2 * cos_lat i * cos_lat i)
  let hplane : Batch n := fun i => (normal i + object.z i) * cos_lat i
  let object1 := { object with x := fun i => hplane i * Real.cos (longitude i) }
  let object2 := { object1 with y := fun i => hplane i * Real.sin (longitude i) }
  { object2 with z := fun i => (object2.z i + normal i * (1 - g.eccentricity1)) * sin_lat i }

/-- The batch `ecef2geod`. The `longitude` expression is lazy: it reads the `x` and `y`
columns when `object.x()` is assigned, coefficient by coefficient. -/
noncomputable def ecef2geodArray {n : ℕ} (g : Georef) (object : Point3 (Batch n)) :
    Point3 (Batch n) :=
  let hplane : Batch n := hypotArray object.x object.y
  let tangent0 : Batch n := fun i => object.z i / hplane i *
    (1 + (g.eccentricity2 * g.minor_radius) / hypotArray hplane object.z i)
  let latitude0 : Batch n := fun i => Real.arctan (tangent0 i * (1 - g.flattening))
  let tangent1 : Batch n := fun i =>
    (object.z i + (g.eccentricity2 * g.minor_radius) * Real.sin (latitude0 i) ^ 3) /
      (hplane i - (g.eccentricity1 * g.major_radius) * Real.cos (latitude0 i) ^ 3)
  let latitude1 : Batch n := fun i => Real.arctan (tangent1 i * (1 - g.flattening))
  let tangent : Batch n := fun i =>
    (object.z i + (g.eccentricity2 * g.minor_radius) * Real.sin (latitude1 i) ^ 3) /
      (hplane i - (g.eccentricity1 * g.major_radius) * Real.cos (latitude1 i) ^ 3)
  let longitude : Point3 (Batch n) → Batch n := fun storage => atan2Array storage.y storage.x
  let latitude : Batch n := fun i => Real.arctan (tangent i)
  let cos_lat : Batch n :=
    fun i => if latitude i = Real.pi / 2 then 1 else Real.cos (latitude i)
  let sin_lat : Batch n := fun i => if latitude i = 0 then 1 else Real.sin (latitude i)
  let normal : Batch n :=
    fun i => g.polar_radius / Real.sqrt (1 + g.eccentricity2 * cos_lat i * cos_lat i)
  let object1 := { object with
    x := fun i => g.origin.x + (longitude object i * degree - g.origin.x) / g.scale_factor }
  let object2 := { object1 with
    y := fun i => g.origin.y + (latitude i * degree - g.origin.y) / g.scale_factor }
  { object2 with
    z := fun i => if |tangent i| ≤ 1 then hplane i / cos_lat i - normal i
                  else object2.z i / sin_lat i - normal i * (1 - g.eccentricity1) }

/-- The batch `ecef2topo`. -/
def ecef2topoArray {n : ℕ} (g : Georef) (object : Point3 (Batch n)) : Point3 (Batch n) :=
  let object1 := { object with
    z := fun i => object.z i + g.eccentricity1 * g.normal_radius * g.sin_lat0 }
  let object2 := object1.rotateArray Ox Oy g.cos_lon0 g.sin_lon0
  let object3 := object2.rotateArray Oz Ox g.sin_lat0 g.cos_lat0
  let object4 := object3.swapArray Ox Oy
  let object5 := { object4 with y := fun i => -object4.y i }
  { object5 with z := fun i => object5.z i - (g.normal_radius + g.origin.z) }

/-- The batch `topo2ecef`. -/
def topo2ecefArray {n : ℕ} (g : Georef) (object : Point3 (Batch n)) : Point3 (Batch n) :=
  let object1 := { object with z := fun i => object.z i + (g.normal_radius + g.origin.z) }
  let object2 := { object1 with y := fun i => -object1.y i }
  let object3 := object2.swapArray Ox Oy
  let object4 := object3.rotateArray Oz Ox g.sin_lat0 (-g.cos_lat0)
  let object5 := object4.rotateArray Ox Oy g.cos_lon0 (-g.sin_lon0)
  { object5 with z := fun i => object5.z i - g.eccentricity1 * g.normal_radius * g.sin_lat0 }

/-! ## Sub-expressions of `ecef2geod`, named for the proofs -/

/-- The expression bound to `tangent0` in `ecef2geod`. -/
noncomputable def tangent0 (g : Georef) (hplane z : ℝ) : ℝ :=
  z / hplane * (1 + (g.eccentricity2 * g.minor_radius) / hypot hplane z)

/-- The refinement expression of `ecef2geod`, written there once for `tangent1` (from
`latitude0`) and once for `tangent` (from `latitude1`). -/
noncomputable def refineTangent (g : Georef) (hplane z latitude : ℝ) : ℝ :=
  (z + (g.eccentricity2 * g.minor_radius) * Real.sin latitude ^ 3) /
    (hplane - (g.eccentricity1 * g.major_radius) * Real.cos latitude ^ 3)

/-- The value bound to `tangent` in `ecef2geod`: two refinements of `tangent0`. -/
noncomputable def tangent (g : Georef) (hplane z : ℝ) : ℝ :=
  g.refineTangent hplane z
    (Real.arctan (g.refineTangent hplane z
      (Real.arctan (g.tangent0 hplane z * (1 - g.flattening))) * (1 - g.flattening)))

/-- The normal-radius expression `polar_radius / sqrt( 1. + eccentricity2 * cos_lat * cos_lat )`
of `geod2ecef` and `ecef2geod`. -/
noncomputable def normal (g : Georef) (cos_lat : ℝ) : ℝ :=
  g.polar_radius / Real.sqrt (1 + g.eccentricity2 * cos_lat * cos_lat)

/-! ## The scalar pipeline of `main` and the divisions it performs -/

/-- The scalar block of `main`: `geod2ecef`, `ecef2topo`, `topo2ecef`, `ecef2geod`. -/
noncomputable def pipeline (g : Georef) (point : Point3 ℝ) : Point3 ℝ :=
  g.ecef2geod (g.topo2ecef (g.ecef2topo (g.geod2ecef point)))

/-- The divisors of the divisions of `geod2ecef`, in source order. -/
noncomputable def geod2ecefDivisors (g : Georef) (object : Point3 ℝ) : List ℝ :=
  let latitude := (g.origin.y + (object.y - g.origin.y) * g.scale_factor) * radian
  let cos_lat := Real.cos latitude
  [Real.sqrt (1 + g.eccentricity2 * cos_lat * cos_lat)]

/-- The arguments of the square roots of `geod2ecef`. -/
noncomputable def geod2ecefRadicands (g : Georef) (object : Point3 ℝ) : List ℝ :=
  let latitude := (g.origin.y + (object.y - g.origin.y) * g.scale_factor) * radian
  let cos_lat := Real.cos latitude
  [1 + g.eccentricity2 * cos_lat * cos_lat]

/-- The divisors of the divisions of `ecef2geod`, in source order; both arguments of the
scalar `select` are evaluated, so both height formulas are computed. -/
noncomputable def ecef2geodDivisors (g : Georef) (object : Point3 ℝ) : List ℝ :=
  let hplane := hypot object.x object.y
  let tangent0 := object.z / hplane *
    (1 + (g.eccentricity2 * g.minor_radius) / hypot hplane object.z)
  let latitude0 := Real.arctan (tangent0 * (1 - g.flattening))
  let tangent1 := (object.z + (g.eccentricity2 * g.minor_radius) * Real.sin latitude0 ^ 3) /
    (hplane - (g.eccentricity1 * g.major_radius) * Real.cos latitude0 ^ 3)
  let latitude1 := Real.arctan (tangent1 * (1 - g.flattening))
  let tangent := (object.z + (g.eccentricity2 * g.minor_radius) * Real.sin latitude1 ^ 3) /
    (hplane - (g.eccentricity1 * g.major_radius) * Real.cos latitude1 ^ 3)
  let latitude := Real.arctan tangent
  let cos_lat := if latitude = Real.pi / 2 then 1 else Real.cos latitude
  let sin_lat := if latitude = 0 then 1 else Real.sin latitude
  [hplane,
    hypot hplane object.z,
    hplane - (g.eccentricity1 * g.major_radius) * Real.cos latitude0 ^ 3,
    hplane - (g.eccentricity1 * g.major_radius) * Real.cos latitude1 ^ 3,
    Real.sqrt (1 + g.eccentricity2 * cos_lat * cos_lat),
    g.scale_factor,
    g.scale_factor,
    cos_lat,
    sin_lat]

/-- The arguments of the square roots of `ecef2geod` (those inside `hypot` included). -/
noncomputable def ecef2geodRadicands (g : Georef) (object : Point3 ℝ) : List ℝ :=
  let hplane := hypot object.x object.y
  let tangent0 := object.z / hplane *
    (1 + (g.eccentricity2 * g.minor_radius) / hypot hplane object.z)
  let latitude0 := Real.arctan (tangent0 * (1 - g.flattening))
  let tangent1 := (object.z + (g.eccentricity2 * g.minor_radius) * Real.sin latitude0 ^ 3) /
    (hplane - (g.eccentricity1 * g.major_radius) * Real.cos latitude0 ^ 3)
  let latitude1 := Real.arctan (tangent1 * (1 - g.flattening))
  let tangent := (object.z + (g.eccentricity2 * g.minor_radius) * Real.sin latitude1 ^ 3) /
    (hplane - (g.eccentricity1 * g.major_radius) * Real.cos latitude1 ^ 3)
  let latitude := Real.arctan tangent
  let cos_lat := if latitude = Real.pi / 2 then 1 else Real.cos latitude
  [object.x * object.x + object.y * object.y,
    hplane * hplane + object.z * object.z,
    1 + g.eccentricity2 * cos_lat * cos_lat]

/-- The divisors met along the pipeline; `ecef2topo` and `topo2ecef` divide nowhere. -/
noncomputable def pipelineDivisors (g : Georef) (point : Point3 ℝ) : List ℝ :=
  g.geod2ecefDivisors point ++
    g.ecef2geodDivisors (g.topo2ecef (g.ecef2topo (g.geod2ecef point)))

/-- The square-root arguments met along the pipeline. -/
noncomputable def pipelineRadicands (g : Georef) (point : Point3 ℝ) : List ℝ :=
  g.geod2ecefRadicands point ++
    g.ecef2geodRadicands (g.topo2ecef (g.ecef2topo (g.geod2ecef point)))

end Georef

/-! ## The openmp and sycl variants

`src/openmp/main.cpp` and `src/sycl/main.cpp` keep the origin in three `Config` fields and
their `Georef::create` stores it converted to radians. Their `Point3`, `geod2ecef`,
`ecef2geod`, `ecef2topo` and `topo2ecef` have the bodies of the scalar eigen3 ones (the sycl
file calls `sycl::cos`, `sycl::sin`, `sycl::sqrt`, ... for the same functions), so the
definitions of `Georef` above serve for them. -/

namespace Openmp

/-- The struct `Config` of `src/openmp/main.cpp`. -/
structure Config where
  origin_logitude : ℝ
  origin_latitude : ℝ
  origin_altitude : ℝ
  scale_factor : ℝ

/-- The factory `Config::create()` of `src/openmp/main.cpp`. -/
noncomputable def Config.create : Config :=
  { origin_logitude := 0, origin_latitude := 0, origin_altitude := 0, scale_factor := 0.75 }

/-- The factory `Georef::create( config )` of `src/openmp/main.cpp`: the stored origin is
`( longitude, latitude, altitude )` with the two angles already multiplied by `radian`. -/
noncomputable def create (config : Config) : Georef :=
  let longitude := config.origin_logitude * radian
  let latitude := config.origin_latitude * radian
  let altitude := config.origin_altitude
  let flattening : ℝ := 1 / 298.257223563
  let major_radius := 6378137 / config.scale_factor
  let minor_radius := major_radius * (1 - flattening)
  let polar_radius := major_radius / (1 - flattening)
  let eccentricity1 := flattening * (2 - flattening)
  let eccentricity2 := eccentricity1 / (1 - eccentricity1)
  let sin_lon0 := Real.sin longitude
  let cos_lon0 := Real.cos longitude
  let sin_lat0 := Real.sin latitude
  let cos_lat0 := Real.cos latitude
  let normal_radius := polar_radius / Real.sqrt (1 + eccentricity2 * cos_lat0 * cos_lat0)
  { origin := Point3.create longitude latitude altitude
    sin_lon0 := sin_lon0
    cos_lon0 := cos_lon0
    sin_lat0 := sin_lat0
    cos_lat0 := cos_lat0
    scale_factor := config.scale_factor
    major_radius := major_radius
    minor_radius := minor_radius
    polar_radius := polar_radius
    normal_radius := normal_radius
    flattening := flattening
    eccentricity1 := eccentricity1
    eccentricity2 := eccentricity2 }

end Openmp

namespace Sycl

/-- The struct `Config` of `src/sycl/main.cpp`. -/
structure Config where
  origin_logitude : ℝ
  origin_latitude : ℝ
  origin_altitude : ℝ
  scale_factor : ℝ

/-- The factory `Config::create()` of `src/sycl/main.cpp`. -/
noncomputable def Config.create : Config :=
  { origin_logitude := 0, origin_latitude := 0, origin_altitude := 0, scale_factor := 0.75 }

/-- The factory `Georef::create( config )` of `src/sycl/main.cpp`, the same text as the
openmp one. -/
noncomputable def create (config : Config) : Georef :=
  let longitude := config.origin_logitude * radian
  let latitude := config.origin_latitude * radian
  let altitude := config.origin_altitude
  let flattening : ℝ := 1 / 298.257223563
  let major_radius := 6378137 / config.scale_factor
  let minor_radius := major_radius * (1 - flattening)
  let polar_radius := major_radius / (1 - flattening)
  let eccentricity1 := flattening * (2 - flattening)
  let eccentricity2 := eccentricity1 / (1 - eccentricity1)
  let sin_lon0 := Real.sin longitude
  let cos_lon0 := Real.cos longitude
  let sin_lat0 := Real.sin latitude
  let cos_lat0 := Real.cos latitude
  let normal_radius := polar_radius / Real.sqrt (1 + eccentricity2 * cos_lat0 * cos_lat0)
  { origin := Point3.create longitude latitude altitude
    sin_lon0 := sin_lon0
    cos_lon0 := cos_lon0
    sin_lat0 := sin_lat0
    cos_lat0 := cos_lat0
    scale_factor := config.scale_factor
    major_radius := major_radius
    minor_radius := minor_radius
    polar_radius := polar_radius
    normal_radius := normal_radius
    flattening := flattening
    eccentricity1 := eccentricity1
    eccentricity2 := eccentricity2 }

end Sycl

/-! ## Algebraic facts -/

section Theorems

open Georef

theorem Point3.eq_of_coords {α : Type} {p q : Point3 α} (hx : p.x = q.x) (hy : p.y = q.y)
    (hz : p.z = q.z) : p = q := by
  cases p; cases q; simp_all

/-- C8 (Point3::rotate): for distinct axes `a`, `b` the scalar rotate and, at every index,
the batch rotate store `cos * a + sin * b` in `a` and `-sin * a + cos * b` in `b`, both read
from the point before the rotation. -/
theorem C8_rotate_contract (p : Point3 ℝ) (a b : Orientation) (hab : a ≠ b) (cos sin : ℝ)
    {n : ℕ} (P : Point3 (Batch n)) (i : Fin n) :
    ((p.rotate a b cos sin).get a = cos * p.get a + sin * p.get b ∧
      (p.rotate a b cos sin).get b = -sin * p.get a + cos * p.get b) ∧
    ((P.rotateArray a b cos sin).get a i = cos * P.get a i + sin * P.get b i ∧
      (P.rotateArray a b cos sin).get b i = -sin * P.get a i + cos * P.get b i) := by
  cases a <;> cases b <;>
    first
    | exact absurd rfl hab
    | simp [Point3.rotate, Point3.rotateArray, Point3.get, Point3.set]

theorem C8_rotate_contract_witness :
    Ox ≠ Oy ∧
    (((Point3.mk (1 : ℝ) 2 3).rotate Ox Oy 5 7).get Ox
        = 5 * (Point3.mk (1 : ℝ) 2 3).get Ox + 7 * (Point3.mk (1 : ℝ) 2 3).get Oy ∧
      ((Point3.mk (1 : ℝ) 2 3).rotate Ox Oy 5 7).get Oy
        = -7 * (Point3.mk (1 : ℝ) 2 3).get Ox + 5 * (Point3.mk (1 : ℝ) 2 3).get Oy) ∧
    (((Point3.mk (fun _ : Fin 2 => (1 : ℝ)) (fun _ => 2) (fun _ => 3)).rotateArray
          Ox Oy 5 7).get Ox 0
        = 5 * (Point3.mk (fun _ : Fin 2 => (1 : ℝ)) (fun _ => 2) (fun _ => 3)).get Ox 0
          + 7 * (Point3.mk (fun _ : Fin 2 => (1 : ℝ)) (fun _ => 2) (fun _ => 3)).get Oy 0 ∧
      ((Point3.mk (fun _ : Fin 2 => (1 : ℝ)) (fun _ => 2) (fun _ => 3)).rotateArray
          Ox Oy 5 7).get Oy 0
        = -7 * (Point3.mk (fun _ : Fin 2 => (1 : ℝ)) (fun _ => 2) (fun _ => 3)).get Ox 0
          + 5 * (Point3.mk (fun _ : Fin 2 => (1 : ℝ)) (fun _ => 2) (fun _ => 3)).get Oy 0) :=
  ⟨by decide, C8_rotate_contract _ Ox Oy (by decide) 5 7 _ 0⟩

theorem create_sin_cos_lon0 (config : Config) :
    (create config).sin_lon0 ^ 2 + (create config).cos_lon0 ^ 2 = 1 :=
  Real.sin_sq_add_cos_sq (config.origin.x * radian)

theorem create_sin_cos_lat0 (config : Config) :
    (create config).sin_lat0 ^ 2 + (create config).cos_lat0 ^ 2 = 1 :=
  Real.sin_sq_add_cos_sq (config.origin.y * radian)

/-- For any parameter record whose cached sines and cosines lie on the unit circle,
`topo2ecef` undoes `ecef2topo`. -/
theorem topo2ecef_ecef2topo_of_unit (g : Georef)
    (hlon : g.sin_lon0 ^ 2 + g.cos_lon0 ^ 2 = 1) (hlat : g.sin_lat0 ^ 2 + g.cos_lat0 ^ 2 = 1)
    (p : Point3 ℝ) : g.topo2ecef (g.ecef2topo p) = p := by
  obtain ⟨x, y, z⟩ := p
  apply Point3.eq_of_coords
  · simp only [topo2ecef, ecef2topo, Point3.rotate, Point3.swap, Point3.get, Point3.set]
    linear_combination g.cos_lon0 * (g.cos_lon0 * x + g.sin_lon0 * y) * hlat + x * hlon
  · simp only [topo2ecef, ecef2topo, Point3.rotate, Point3.swap, Point3.get, Point3.set]
    linear_combination g.sin_lon0 * (g.cos_lon0 * x + g.sin_lon0 * y) * hlat + y * hlon
  · simp only [topo2ecef, ecef2topo, Point3.rotate, Point3.swap, Point3.get, Point3.set]
    linear_combination (z + g.eccentricity1 * g.normal_radius * g.sin_lat0) * hlat

/-- C1 (exact inverse): for a Config with positive scale factor and `g = Georef::create(config)`,
`topo2ecef` applied after `ecef2topo` returns the point it started from. -/
theorem C1_topo2ecef_ecef2topo (config : Config) (_hs : 0 < config.scale_factor)
    (p : Point3 ℝ) :
    (create config).topo2ecef ((create config).ecef2topo p) = p :=
  topo2ecef_ecef2topo_of_unit (create config) (create_sin_cos_lon0 config)
    (create_sin_cos_lat0 config) p

theorem C1_topo2ecef_ecef2topo_witness :
    0 < Config.create.scale_factor ∧
      (create Config.create).topo2ecef ((create Config.create).ecef2topo ⟨1, 2, 3⟩)
        = ⟨1, 2, 3⟩ :=
  ⟨by norm_num [Config.create], C1_topo2ecef_ecef2topo Config.create
    (by norm_num [Config.create]) ⟨1, 2, 3⟩⟩

/-- C4 (geod2ecef formulas): with `L = (lon0 + (x - lon0) * s) * radian`,
`B = (lat0 + (y - lat0) * s) * radian`, `N = polar_radius / sqrt (1 + e2 * cos B ^ 2)` and
`H = (N + h) * cos B`, the point `(x, y, h)` is sent to
`(H * cos L, H * sin L, (h + N * (1 - e1)) * sin B)`; the output `z` uses the input height. -/
theorem C4_geod2ecef_formula (config : Config) (x y h : ℝ) :
    (create config).geod2ecef ⟨x, y, h⟩ =
      ⟨(((create config).polar_radius /
            Real.sqrt (1 + (create config).eccentricity2 *
              Real.cos ((config.origin.y + (y - config.origin.y) * config.scale_factor) * radian)
                ^ 2) + h) *
          Real.cos ((config.origin.y + (y - config.origin.y) * config.scale_factor) * radian)) *
          Real.cos ((config.origin.x + (x - config.origin.x) * config.scale_factor) * radian),
        (((create config).polar_radius /
            Real.sqrt (1 + (create config).eccentricity2 *
              Real.cos ((config.origin.y + (y - config.origin.y) * config.scale_factor) * radian)
                ^ 2) + h) *
          Real.cos ((config.origin.y + (y - config.origin.y) * config.scale_factor) * radian)) *
          Real.sin ((config.origin.x + (x - config.origin.x) * config.scale_factor) * radian),
        (h + (create config).polar_radius /
            Real.sqrt (1 + (create config).eccentricity2 *
              Real.cos ((config.origin.y + (y - config.origin.y) * config.scale_factor) * radian)
                ^ 2) * (1 - (create config).eccentricity1)) *
          Real.sin ((config.origin.y + (y - config.origin.y) * config.scale_factor) * radian)⟩ := by
  have hsq : ∀ (e c : ℝ), e * c * c = e * c ^ 2 := fun e c => by ring
  simp only [geod2ecef, hsq]
  rfl

/-- The composite of the six steps of `ecef2topo`, coordinate by coordinate. -/
theorem ecef2topo_coords (g : Georef) (p : Point3 ℝ) :
    g.ecef2topo p =
      ⟨-g.sin_lon0 * p.x + g.cos_lon0 * p.y,
        g.cos_lat0 * (p.z + g.eccentricity1 * g.normal_radius * g.sin_lat0)
          - g.sin_lat0 * (g.cos_lon0 * p.x + g.sin_lon0 * p.y),
        g.sin_lat0 * (p.z + g.eccentricity1 * g.normal_radius * g.sin_lat0)
          + g.cos_lat0 * (g.cos_lon0 * p.x + g.sin_lon0 * p.y)
          - (g.normal_radius + g.origin.z)⟩ := by
  apply Point3.eq_of_coords
  all_goals simp only [ecef2topo, Point3.rotate, Point3.swap, Point3.get, Point3.set]
  all_goals ring

/-- C5 (ecef2topo formulas): with `c = eccentricity1 * normal_radius * sin_lat0`, the six
steps of `ecef2topo` send `(x, y, z)` to
`x' = -sin_lon0 * x + cos_lon0 * y`,
`y' = cos_lat0 * (z + c) - sin_lat0 * (cos_lon0 * x + sin_lon0 * y)`,
`z' = sin_lat0 * (z + c) + cos_lat0 * (cos_lon0 * x + sin_lon0 * y) - (normal_radius + h0)`. -/
theorem C5_ecef2topo_formula (g : Georef) (x y z : ℝ) :
    g.ecef2topo ⟨x, y, z⟩ =
      ⟨-g.sin_lon0 * x + g.cos_lon0 * y,
        g.cos_lat0 * (z + g.eccentricity1 * g.normal_radius * g.sin_lat0)
          - g.sin_lat0 * (g.cos_lon0 * x + g.sin_lon0 * y),
        g.sin_lat0 * (z + g.eccentricity1 * g.normal_radius * g.sin_lat0)
          + g.cos_lat0 * (g.cos_lon0 * x + g.sin_lon0 * y)
          - (g.normal_radius + g.origin.z)⟩ :=
  ecef2topo_coords g ⟨x, y, z⟩

/-- C6 (Georef::create): for a Config with positive scale `s`, the derived parameters are
`f = 1/298.257223563`, `a = 6378137/s`, `b = a*(1-f)`, `polar = a/(1-f)`, `e1 = f*(2-f)`,
`e2 = e1/(1-e1)`, `N0 = polar / sqrt (1 + e2 * cos (lat0*radian)^2)`, and the cached values
are the sine and cosine of the origin longitude and latitude in radians. -/
theorem C6_create_fields (config : Config) (_hs : 0 < config.scale_factor) :
    (create config).flattening = 1 / 298.257223563 ∧
    (create config).major_radius = 6378137 / config.scale_factor ∧
    (create config).minor_radius
      = (create config).major_radius * (1 - (create config).flattening) ∧
    (create config).polar_radius
      = (create config).major_radius / (1 - (create config).flattening) ∧
    (create config).eccentricity1
      = (create config).flattening * (2 - (create config).flattening) ∧
    (create config).eccentricity2
      = (create config).eccentricity1 / (1 - (create config).eccentricity1) ∧
    (create config).normal_radius
      = (create config).polar_radius /
          Real.sqrt (1 + (create config).eccentricity2
            * Real.cos (config.origin.y * radian) ^ 2) ∧
    (create config).sin_lon0 = Real.sin (config.origin.x * radian) ∧
    (create config).cos_lon0 = Real.cos (config.origin.x * radian) ∧
    (create config).sin_lat0 = Real.sin (config.origin.y * radian) ∧
    (create config).cos_lat0 = Real.cos (config.origin.y * radian) := by
  refine ⟨rfl, rfl, rfl, rfl, rfl, rfl, ?_, rfl, rfl, rfl, rfl⟩
  simp only [create, mul_assoc, sq]

theorem C6_create_fields_witness :
    0 < Config.create.scale_factor ∧
    (create Config.create).flattening = 1 / 298.257223563 ∧
    (create Config.create).major_radius = 6378137 / Config.create.scale_factor ∧
    (create Config.create).minor_radius
      = (create Config.create).major_radius * (1 - (create Config.create).flattening) ∧
    (create Config.create).polar_radius
      = (create Config.create).major_radius / (1 - (create Config.create).flattening) ∧
    (create Config.create).eccentricity1
      = (create Config.create).flattening * (2 - (create Config.create).flattening) ∧
    (create Config.create).eccentricity2
      = (create Config.create).eccentricity1 / (1 - (create Config.create).eccentricity1) ∧
    (create Config.create).normal_radius
      = (create Config.create).polar_radius /
          Real.sqrt (1 + (create Config.create).eccentricity2
            * Real.cos (Config.create.origin.y * radian) ^ 2) ∧
    (create Config.create).sin_lon0 = Real.sin (Config.create.origin.x * radian) ∧
    (create Config.create).cos_lon0 = Real.cos (Config.create.origin.x * radian) ∧
    (create Config.create).sin_lat0 = Real.sin (Config.create.origin.y * radian) ∧
    (create Config.create).cos_lat0 = Real.cos (Config.create.origin.y * radian) :=
  ⟨by norm_num [Config.create], C6_create_fields Config.create (by norm_num [Config.create])⟩

/-- C7 (origin is the centre of the topocentric frame): for a Config with positive scale
and origin `(lon0, lat0, h0)`, `geod2ecef` followed by `ecef2topo` sends the geodetic point
`(lon0, lat0, h0)` to `(0, 0, 0)`. -/
theorem C7_origin_maps_to_zero (config : Config) (_hs : 0 < config.scale_factor) :
    (create config).ecef2topo ((create config).geod2ecef config.origin) = ⟨0, 0, 0⟩ := by
  have hlon := Real.sin_sq_add_cos_sq (config.origin.x * radian)
  have hlat := Real.sin_sq_add_cos_sq (config.origin.y * radian)
  have h0x : (config.origin.x + (config.origin.x - config.origin.x) * config.scale_factor)
      = config.origin.x := by ring
  have h0y : (config.origin.y + (config.origin.y - config.origin.y) * config.scale_factor)
      = config.origin.y := by ring
  rw [ecef2topo_coords]
  simp only [geod2ecef, create, h0x, h0y]
  generalize Real.sin (config.origin.x * radian) = sl at *
  generalize Real.cos (config.origin.x * radian) = cl at *
  generalize Real.sin (config.origin.y * radian) = sp at *
  generalize Real.cos (config.origin.y * radian) = cp at *
  generalize (6378137 / config.scale_factor / (1 - 1 / 298.257223563) /
    Real.sqrt (1 + 1 / 298.257223563 * (2 - 1 / 298.257223563) /
      (1 - 1 / 298.257223563 * (2 - 1 / 298.257223563)) * cp * cp)) = N
  generalize (1 / 298.257223563 * (2 - 1 / 298.257223563) : ℝ) = e1
  apply Point3.eq_of_coords
  · show -sl * ((N + config.origin.z) * cp * cl) + cl * ((N + config.origin.z) * cp * sl) = 0
    ring
  · show cp * ((config.origin.z + N * (1 - e1)) * sp + e1 * N * sp)
      - sp * (cl * ((N + config.origin.z) * cp * cl) + sl * ((N + config.origin.z) * cp * sl)) = 0
    linear_combination (-(sp * cp * (N + config.origin.z))) * hlon
  · show sp * ((config.origin.z + N * (1 - e1)) * sp + e1 * N * sp)
      + cp * (cl * ((N + config.origin.z) * cp * cl) + sl * ((N + config.origin.z) * cp * sl))
      - (N + config.origin.z) = 0
    linear_combination (cp ^ 2 * (N + config.origin.z)) * hlon + (N + config.origin.z) * hlat

theorem C7_origin_maps_to_zero_witness :
    0 < Config.create.scale_factor ∧
      (create Config.create).ecef2topo ((create Config.create).geod2ecef Config.create.origin)
        = ⟨0, 0, 0⟩ :=
  ⟨by norm_num [Config.create], C7_origin_maps_to_zero Config.create
    (by norm_num [Config.create])⟩

/-! ## Batch and scalar transforms -/

/-- For `x > 0` the angle of `(x, y)` is `atan (y / x)`. -/
theorem atan2_of_pos {x : ℝ} (hx : 0 < x) (y : ℝ) : atan2 y x = Real.arctan (y / x) := by
  have hre : (0 : ℝ) < (Complex.mk x y).re := hx
  have habs : |Complex.arg ⟨x, y⟩| < Real.pi / 2 :=
    Complex.abs_arg_lt_pi_div_two_iff.2 (Or.inl hre)
  have htan : Real.tan (Complex.arg ⟨x, y⟩) = y / x := Complex.tan_arg ⟨x, y⟩
  have h := Real.arctan_tan (abs_lt.1 habs).1 (abs_lt.1 habs).2
  rw [htan] at h
  exact h.symm

/-- For `x ≠ 0` the scalar `atan2` is `atan (y / x)` moved to the right quadrant, which is
the expression the batch helper evaluates. -/
theorem atan2_of_ne_zero {x : ℝ} (hx : x ≠ 0) (y : ℝ) :
    atan2 y x =
      if x < 0 then (if y < 0 then Real.arctan (y / x) - Real.pi
        else Real.arctan (y / x) + Real.pi)
      else Real.arctan (y / x) := by
  rcases lt_or_gt_of_ne hx with hneg | hpos
  · have hq : (-y) / (-x) = y / x := neg_div_neg_eq y x
    have hpos' : 0 < -x := neg_pos.2 hneg
    have hw := atan2_of_pos hpos' (-y)
    rw [hq] at hw
    have hz : (Complex.mk x y) = -(Complex.mk (-x) (-y)) := by
      apply Complex.ext <;> simp
    rw [if_pos hneg]
    by_cases hy : y < 0
    · rw [if_pos hy]
      have him : 0 < (Complex.mk (-x) (-y)).im := neg_pos.2 hy
      have := Complex.arg_neg_eq_arg_sub_pi_of_im_pos him
      unfold atan2 at hw ⊢
      rw [hz, this, hw]
    · rw [if_neg hy]
      rcases eq_or_lt_of_le (not_lt.1 hy) with h0 | hgt
      · subst h0
        have : Complex.arg ⟨x, 0⟩ = Real.pi :=
          Complex.arg_eq_pi_iff.2 ⟨hneg, rfl⟩
        unfold atan2
        rw [this]
        simp
      · have him : (Complex.mk (-x) (-y)).im < 0 := neg_neg_of_pos hgt
        have := Complex.arg_neg_eq_arg_add_pi_of_im_neg him
        unfold atan2 at hw ⊢
        rw [hz, this, hw]
  · rw [if_neg (not_lt.2 hpos.le)]
    exact atan2_of_pos hpos y

/-- The batch `atan2` helper agrees with the scalar `atan2` at every index with `x ≠ 0`. -/
theorem atan2Array_eq_atan2 {n : ℕ} (y x : Batch n) (i : Fin n) (hx : x i ≠ 0) :
    atan2Array y x i = atan2 (y i) (x i) := by
  rw [atan2_of_ne_zero hx]
  rfl

theorem geod2ecefArray_row {n : ℕ} (g : Georef) (P : Point3 (Batch n)) (i : Fin n) :
    (g.geod2ecefArray P).row i = g.geod2ecef (P.row i) := rfl

theorem ecef2topoArray_row {n : ℕ} (g : Georef) (P : Point3 (Batch n)) (i : Fin n) :
    (g.ecef2topoArray P).row i = g.ecef2topo (P.row i) := rfl

theorem topo2ecefArray_row {n : ℕ} (g : Georef) (P : Point3 (Batch n)) (i : Fin n) :
    (g.topo2ecefArray P).row i = g.topo2ecef (P.row i) := rfl

theorem ecef2geodArray_row {n : ℕ} (g : Georef) (P : Point3 (Batch n)) (i : Fin n)
    (hx : P.x i ≠ 0) : (g.ecef2geodArray P).row i = g.ecef2geod (P.row i) := by
  have h := atan2Array_eq_atan2 P.y P.x i hx
  apply Point3.eq_of_coords
  · simp only [ecef2geodArray, ecef2geod, Point3.row, h]
  · rfl
  · rfl

/-- C9 (batch/scalar equivalence): for every Georef, every batch and every index `i`, row `i`
of the batch `geod2ecef`, `ecef2topo` and `topo2ecef` is the scalar transform of row `i`
alone, and the same holds for `ecef2geod` at every index whose `x` coordinate is non-zero
(where the batch `atan2` helper does not divide by zero). -/
theorem C9_batch_eq_scalar {n : ℕ} (g : Georef) (P : Point3 (Batch n)) (i : Fin n) :
    (g.geod2ecefArray P).row i = g.geod2ecef (P.row i) ∧
    (g.ecef2topoArray P).row i = g.ecef2topo (P.row i) ∧
    (g.topo2ecefArray P).row i = g.topo2ecef (P.row i) ∧
    (P.x i ≠ 0 → (g.ecef2geodArray P).row i = g.ecef2geod (P.row i)) :=
  ⟨geod2ecefArray_row g P i, ecef2topoArray_row g P i, topo2ecefArray_row g P i,
    ecef2geodArray_row g P i⟩

theorem C9_batch_eq_scalar_witness :
    ((create Config.create).ecef2geodArray
        (Point3.mk (fun _ : Fin 2 => (1 : ℝ)) (fun _ => 2) (fun _ => 3))).row 0
      = (create Config.create).ecef2geod
          ((Point3.mk (fun _ : Fin 2 => (1 : ℝ)) (fun _ => 2) (fun _ => 3)).row 0) :=
  (C9_batch_eq_scalar (create Config.create)
    (Point3.mk (fun _ : Fin 2 => (1 : ℝ)) (fun _ => 2) (fun _ => 3)) 0).2.2.2 one_ne_zero

theorem radian_pos : 0 < radian := by
  unfold radian
  positivity

theorem degree_mul_radian : degree * radian = 1 := by
  unfold degree
  field_simp [radian_pos.ne']

theorem mul_radian_mul_degree (v : ℝ) : v * radian * degree = v := by
  rw [mul_assoc, mul_comm radian degree, degree_mul_radian, mul_one]

/-- At an index with `x = 0` the quotient `y / x` of the batch `atan2` helper has a zero
divisor; with the quotient read as `0` the batch longitude of `(0, 1, 0)` is `0` and the
scalar one is `120` (the angle `π / 2` un-scaled by `0.75`). -/
theorem ecef2geodArray_row_x_zero :
    ((create Config.create).ecef2geodArray
        (Point3.mk (fun _ : Fin 1 => (0 : ℝ)) (fun _ => 1) (fun _ => 0))).x 0 = 0 ∧
    ((create Config.create).ecef2geod ⟨0, 1, 0⟩).x = 120 := by
  constructor
  · simp [ecef2geodArray, atan2Array, create, Config.create, Point3.create]
  · have harg : atan2 1 0 = Real.pi / 2 := by
      unfold atan2
      exact Complex.arg_eq_pi_div_two_iff.2 ⟨rfl, one_pos⟩
    have h90 : Real.pi / 2 * degree = 90 := by
      have := mul_radian_mul_degree 90
      rw [← this]
      unfold radian
      ring
    simp only [ecef2geod, create, Config.create, Point3.create, harg, h90]
    norm_num

/-! ## Ellipsoid constants -/

theorem create_flattening (config : Config) :
    (create config).flattening = 1 / 298.257223563 := rfl

theorem create_eccentricity1_pos (config : Config) : 0 < (create config).eccentricity1 := by
  simp only [create]
  norm_num

theorem create_eccentricity1_lt (config : Config) :
    (create config).eccentricity1 < 67 / 10000 := by
  simp only [create]
  norm_num

theorem create_eccentricity2_pos (config : Config) : 0 < (create config).eccentricity2 := by
  simp only [create]
  norm_num

theorem create_eccentricity2_lt (config : Config) :
    (create config).eccentricity2 < 68 / 10000 := by
  simp only [create]
  norm_num

theorem create_major_radius_pos (config : Config) (hs : 0 < config.scale_factor) :
    0 < (create config).major_radius := by
  simp only [create]
  positivity

/-! ## Divisors and square roots along the pipeline -/

theorem hypot_nonneg (x y : ℝ) : 0 ≤ hypot x y := Real.sqrt_nonneg _

theorem hypot_ge_abs_left (x y : ℝ) : |x| ≤ hypot x y := by
  unfold hypot
  apply Real.abs_le_sqrt
  nlinarith [sq_nonneg y]

theorem cos_arctan_cube_le_one (t : ℝ) : Real.cos (Real.arctan t) ^ 3 ≤ 1 := by
  have h0 := (Real.cos_arctan_pos t).le
  have h1 := Real.cos_le_one (Real.arctan t)
  calc Real.cos (Real.arctan t) ^ 3 ≤ 1 ^ 3 := pow_le_pow_left₀ h0 h1 3
    _ = 1 := one_pow 3

theorem cos_arctan_cube_pos (t : ℝ) : 0 < Real.cos (Real.arctan t) ^ 3 :=
  pow_pos (Real.cos_arctan_pos t) 3

theorem sin_arctan_ne_zero {t : ℝ} (ht : Real.arctan t ≠ 0) : Real.sin (Real.arctan t) ≠ 0 := by
  have ht0 : t ≠ 0 := fun h => ht (Real.arctan_eq_zero_iff.2 h)
  rw [Real.sin_arctan]
  have hpos : 0 < Real.sqrt (1 + t ^ 2) := Real.sqrt_pos.2 (by positivity)
  exact div_ne_zero ht0 hpos.ne'

/-- Every divisor of `ecef2geod` is non-zero as soon as the point lies farther than
`eccentricity1 * major_radius` from the polar axis. -/
theorem ecef2geodDivisors_ne_zero (g : Georef) (q : Point3 ℝ)
    (he2 : 0 ≤ g.eccentricity2) (hsc : g.scale_factor ≠ 0)
    (hea : 0 ≤ g.eccentricity1 * g.major_radius)
    (hfar : g.eccentricity1 * g.major_radius < hypot q.x q.y) :
    ∀ d ∈ g.ecef2geodDivisors q, d ≠ 0 := by
  have hpl : 0 < hypot q.x q.y := lt_of_le_of_lt hea hfar
  have hden : ∀ t : ℝ,
      hypot q.x q.y - g.eccentricity1 * g.major_radius * Real.cos (Real.arctan t) ^ 3 ≠ 0 := by
    intro t
    have h1 := cos_arctan_cube_le_one t
    have h2 := (cos_arctan_cube_pos t).le
    have : g.eccentricity1 * g.major_radius * Real.cos (Real.arctan t) ^ 3
        ≤ g.eccentricity1 * g.major_radius := by nlinarith
    linarith
  have hsqrt : ∀ c : ℝ, Real.sqrt (1 + g.eccentricity2 * c * c) ≠ 0 := by
    intro c
    have : 0 < 1 + g.eccentricity2 * c * c := by nlinarith [mul_self_nonneg c]
    exact (Real.sqrt_pos.2 this).ne'
  intro d hd
  simp only [ecef2geodDivisors, List.mem_cons, List.mem_singleton, List.not_mem_nil,
    or_false] at hd
  rcases hd with h | h | h | h | h | h | h | h | h
  · rw [h]; exact hpl.ne'
  · rw [h]
    have := hypot_ge_abs_left (hypot q.x q.y) q.z
    rw [abs_of_pos hpl] at this
    linarith
  · rw [h]; exact hden _
  · rw [h]; exact hden _
  · rw [h]; exact hsqrt _
  · rw [h]; exact hsc
  · rw [h]; exact hsc
  · rw [h]
    rw [if_neg (Real.arctan_lt_pi_div_two _).ne]
    exact (Real.cos_arctan_pos _).ne'
  · rw [h]
    split_ifs with h0
    · exact one_ne_zero
    · exact sin_arctan_ne_zero h0

theorem ecef2geodRadicands_nonneg (g : Georef) (q : Point3 ℝ) (he2 : 0 ≤ g.eccentricity2) :
    ∀ r ∈ g.ecef2geodRadicands q, 0 ≤ r := by
  intro r hr
  simp only [ecef2geodRadicands, List.mem_cons, List.mem_singleton, List.not_mem_nil,
    or_false] at hr
  rcases hr with h | h | h
  · rw [h]; nlinarith [mul_self_nonneg q.x, mul_self_nonneg q.y]
  · rw [h]; nlinarith [mul_self_nonneg (hypot q.x q.y), mul_self_nonneg q.z]
  · rw [h]
    generalize (if Real.arctan _ = Real.pi / 2 then (1 : ℝ) else _) = c
    nlinarith [mul_self_nonneg c]

/-- C10 (pole/equator stability, as it holds on the code): for a Config with positive scale
and an input point whose `geod2ecef` image lies farther than `eccentricity1 * major_radius`
from the polar axis, every divisor met along `geod2ecef`, `ecef2topo`, `topo2ecef`,
`ecef2geod` is non-zero and every square-root argument is non-negative. -/
theorem C10_pipeline_divisions_defined (config : Config) (hs : 0 < config.scale_factor)
    (p : Point3 ℝ)
    (hfar : (create config).eccentricity1 * (create config).major_radius
      < hypot ((create config).geod2ecef p).x ((create config).geod2ecef p).y) :
    (∀ d ∈ (create config).pipelineDivisors p, d ≠ 0) ∧
    (∀ r ∈ (create config).pipelineRadicands p, 0 ≤ r) := by
  have hinv := topo2ecef_ecef2topo_of_unit (create config) (create_sin_cos_lon0 config)
    (create_sin_cos_lat0 config) ((create config).geod2ecef p)
  have he2 := (create_eccentricity2_pos config).le
  have hea : 0 ≤ (create config).eccentricity1 * (create config).major_radius :=
    mul_nonneg (create_eccentricity1_pos config).le (create_major_radius_pos config hs).le
  have hrad : ∀ c : ℝ, 0 < 1 + (create config).eccentricity2 * c * c := by
    intro c
    nlinarith [mul_self_nonneg c]
  constructor
  · intro d hd
    simp only [pipelineDivisors, List.mem_append, hinv] at hd
    rcases hd with hd | hd
    · simp only [geod2ecefDivisors, List.mem_singleton] at hd
      rw [hd]
      exact (Real.sqrt_pos.2 (hrad _)).ne'
    · exact ecef2geodDivisors_ne_zero (create config) _ he2 hs.ne' hea hfar d hd
  · intro r hr
    simp only [pipelineRadicands, List.mem_append, hinv] at hr
    rcases hr with hr | hr
    · simp only [geod2ecefRadicands, List.mem_singleton] at hr
      rw [hr]
      exact (hrad _).le
    · exact ecef2geodRadicands_nonneg (create config) _ he2 r hr

/-- At the equator (`cos = 1`) the normal-radius expression of `create`, `geod2ecef` and
`ecef2geod` is the major radius. -/
theorem create_normal_equator (config : Config) :
    (create config).polar_radius / Real.sqrt (1 + (create config).eccentricity2 * 1 * 1)
      = (create config).major_radius := by
  have hsq : Real.sqrt (1 + (create config).eccentricity2 * 1 * 1)
      = 1 / (1 - 1 / 298.257223563) := by
    simp only [create]
    rw [show (1 + 1 / 298.257223563 * (2 - 1 / 298.257223563) /
        (1 - 1 / 298.257223563 * (2 - 1 / 298.257223563)) * 1 * 1 : ℝ)
        = (1 / (1 - 1 / 298.257223563)) ^ 2 by norm_num]
    exact Real.sqrt_sq (by norm_num)
  rw [hsq]
  show 6378137 / config.scale_factor / (1 - 1 / 298.257223563) / (1 / (1 - 1 / 298.257223563))
    = 6378137 / config.scale_factor
  generalize 6378137 / config.scale_factor = a
  have hk : (1 - 1 / 298.257223563 : ℝ) ≠ 0 := by norm_num
  field_simp

/-- C10 fails as stated: with the valid Config of origin `(0, 0, 0)` and scale `1000` the
major radius is `6378.137`, the point of longitude `0`, latitude `0` and height `-6378.137`
is sent by `geod2ecef` to the centre `(0, 0, 0)`, and `ecef2geod` then divides by
`hplane = 0`. -/
theorem C10_counterexample :
    0 < (Config.mk ⟨0, 0, 0⟩ 1000).scale_factor ∧
    ((-180 : ℝ) ≤ 0 ∧ (0 : ℝ) ≤ 180) ∧ ((-10000 : ℝ) ≤ -6378.137 ∧ (-6378.137 : ℝ) ≤ 10000) ∧
    (create (Config.mk ⟨0, 0, 0⟩ 1000)).geod2ecef ⟨0, 0, -6378.137⟩ = ⟨0, 0, 0⟩ ∧
    ¬ (∀ d ∈ (create (Config.mk ⟨0, 0, 0⟩ 1000)).pipelineDivisors ⟨0, 0, -6378.137⟩,
        d ≠ 0) := by
  have hN := create_normal_equator (Config.mk ⟨0, 0, 0⟩ 1000)
  have ha : (create (Config.mk ⟨0, 0, 0⟩ 1000)).major_radius = 6378.137 := by
    simp only [create]
    norm_num
  rw [ha] at hN
  have hg : (create (Config.mk ⟨0, 0, 0⟩ 1000)).geod2ecef ⟨0, 0, -6378.137⟩ = ⟨0, 0, 0⟩ := by
    have h0 : ((0 : ℝ) + (0 - 0) * 1000) * radian = 0 := by ring
    apply Point3.eq_of_coords
    · show ((create (Config.mk ⟨0, 0, 0⟩ 1000)).polar_radius /
          Real.sqrt (1 + (create (Config.mk ⟨0, 0, 0⟩ 1000)).eccentricity2 *
            Real.cos (((0 : ℝ) + (0 - 0) * 1000) * radian) *
            Real.cos (((0 : ℝ) + (0 - 0) * 1000) * radian)) + -6378.137) *
          Real.cos (((0 : ℝ) + (0 - 0) * 1000) * radian) *
          Real.cos (((0 : ℝ) + (0 - 0) * 1000) * radian) = 0
      rw [h0, Real.cos_zero, hN]
      norm_num
    · show _ * Real.sin (((0 : ℝ) + (0 - 0) * 1000) * radian) = 0
      rw [h0, Real.sin_zero, mul_zero]
    · show _ * Real.sin (((0 : ℝ) + (0 - 0) * 1000) * radian) = 0
      rw [h0, Real.sin_zero, mul_zero]
  refine ⟨by norm_num, by norm_num, by norm_num, hg, ?_⟩
  intro hall
  have hinv := topo2ecef_ecef2topo_of_unit (create (Config.mk ⟨0, 0, 0⟩ 1000))
    (create_sin_cos_lon0 _) (create_sin_cos_lat0 _)
    ((create (Config.mk ⟨0, 0, 0⟩ 1000)).geod2ecef ⟨0, 0, -6378.137⟩)
  apply hall (hypot 0 0)
  · unfold pipelineDivisors
    rw [hinv, hg]
    apply List.mem_append_right
    simp only [ecef2geodDivisors, List.mem_cons, true_or]
  · simp [hypot]

/-! ## Distance of the `geod2ecef` image from the polar axis -/

/-- The horizontal radius of the `geod2ecef` image is `|(N + h) * cos B|`. -/
theorem geod2ecef_hypot (g : Georef) (p : Point3 ℝ) :
    hypot (g.geod2ecef p).x (g.geod2ecef p).y =
      |(g.polar_radius / Real.sqrt (1 + g.eccentricity2 *
            Real.cos ((g.origin.y + (p.y - g.origin.y) * g.scale_factor) * radian) *
            Real.cos ((g.origin.y + (p.y - g.origin.y) * g.scale_factor) * radian)) + p.z) *
        Real.cos ((g.origin.y + (p.y - g.origin.y) * g.scale_factor) * radian)| := by
  simp only [geod2ecef, hypot]
  generalize (g.polar_radius / Real.sqrt (1 + g.eccentricity2 *
            Real.cos ((g.origin.y + (p.y - g.origin.y) * g.scale_factor) * radian) *
            Real.cos ((g.origin.y + (p.y - g.origin.y) * g.scale_factor) * radian)) + p.z) *
        Real.cos ((g.origin.y + (p.y - g.origin.y) * g.scale_factor) * radian) = H
  have hL := Real.sin_sq_add_cos_sq ((g.origin.x + (p.x - g.origin.x) * g.scale_factor) * radian)
  rw [← Real.sqrt_sq_eq_abs]
  congr 1
  linear_combination (H ^ 2) * hL

theorem create_polar_radius_pos (config : Config) (hs : 0 < config.scale_factor) :
    0 < (create config).polar_radius := by
  have hk : (0 : ℝ) < 1 - 1 / 298.257223563 := by norm_num
  simp only [create]
  positivity

/-- The normal radius is at least the major radius. -/
theorem create_major_le_normal (config : Config) (hs : 0 < config.scale_factor) (c : ℝ)
    (hc : c * c ≤ 1) :
    (create config).major_radius
      ≤ (create config).polar_radius / Real.sqrt (1 + (create config).eccentricity2 * c * c) := by
  have he2 := create_eccentricity2_pos config
  have hpol := create_polar_radius_pos config hs
  have hle : Real.sqrt (1 + (create config).eccentricity2 * c * c)
      ≤ Real.sqrt (1 + (create config).eccentricity2 * 1 * 1) := by
    apply Real.sqrt_le_sqrt
    nlinarith [mul_self_nonneg c]
  have hpos : 0 < Real.sqrt (1 + (create config).eccentricity2 * c * c) :=
    Real.sqrt_pos.2 (by nlinarith [mul_self_nonneg c])
  rw [← create_normal_equator config]
  exact div_le_div_of_nonneg_left hpol.le hpos hle

/-- The normal radius is at most the polar radius of curvature. -/
theorem create_normal_le_polar (config : Config) (hs : 0 < config.scale_factor) (c : ℝ) :
    (create config).polar_radius / Real.sqrt (1 + (create config).eccentricity2 * c * c)
      ≤ (create config).polar_radius := by
  have he2 := create_eccentricity2_pos config
  have hpol := create_polar_radius_pos config hs
  have hone : 1 ≤ Real.sqrt (1 + (create config).eccentricity2 * c * c) := by
    rw [Real.one_le_sqrt]
    nlinarith [mul_self_nonneg c]
  exact div_le_self hpol.le hone

theorem cos_sq_le_one' (t : ℝ) : Real.cos t * Real.cos t ≤ 1 := by
  nlinarith [Real.sin_sq_add_cos_sq t, sq_nonneg (Real.sin t)]

/-! ## The reference Config -/

theorem reference_scale : (create Config.create).scale_factor = 3 / 4 := by
  simp only [create, Config.create]
  norm_num

theorem reference_scale_pos : 0 < Config.create.scale_factor := by
  simp only [Config.create]
  norm_num

theorem reference_origin : (create Config.create).origin = ⟨0, 0, 0⟩ := rfl

theorem reference_major_radius : (create Config.create).major_radius = 25512548 / 3 := by
  simp only [create, Config.create]
  norm_num

/-- The scaled latitude of the reference Config: `lat * 0.75`, in radians. -/
theorem reference_latitude (lat : ℝ) :
    ((create Config.create).origin.y + (lat - (create Config.create).origin.y)
      * (create Config.create).scale_factor) * radian = lat * (Real.pi / 240) := by
  rw [reference_scale, reference_origin]
  unfold radian
  ring

theorem cos_three_pi_div_eight_ge : (19 / 50 : ℝ) ≤ Real.cos (3 * Real.pi / 8) := by
  have h : Real.cos (3 * Real.pi / 8) = Real.sin (Real.pi / 8) := by
    rw [← Real.cos_pi_div_two_sub]
    congr 1
    ring
  rw [h, Real.sin_pi_div_eight]
  have h2 : Real.sqrt 2 ≤ 1.4224 := by
    rw [Real.sqrt_le_left (by norm_num)]
    norm_num
  have h3 : (0.76 : ℝ) ≤ Real.sqrt (2 - Real.sqrt 2) := by
    rw [Real.le_sqrt (by norm_num) (by linarith)]
    norm_num
    linarith
  linarith

/-- For a latitude in `[-90, 90]` the reference Config scales it into `[-3π/8, 3π/8]`,
where the cosine is at least `0.38`. -/
theorem reference_cos_lat_ge (lat : ℝ) (h1 : -90 ≤ lat) (h2 : lat ≤ 90) :
    (19 / 50 : ℝ) ≤ Real.cos (lat * (Real.pi / 240)) := by
  have hpi := Real.pi_pos
  have habs : |lat * (Real.pi / 240)| ≤ 3 * Real.pi / 8 := by
    rw [abs_le]
    constructor <;> nlinarith
  calc (19 / 50 : ℝ) ≤ Real.cos (3 * Real.pi / 8) := cos_three_pi_div_eight_ge
    _ ≤ Real.cos |lat * (Real.pi / 240)| :=
        Real.cos_le_cos_of_nonneg_of_le_pi (abs_nonneg _) (by linarith) habs
    _ = Real.cos (lat * (Real.pi / 240)) := Real.cos_abs _

/-- With the reference Config every input of latitude in `[-90, 90]` and height in
`[-1e4, 1e4]` has a `geod2ecef` image farther than `eccentricity1 * major_radius` from the
polar axis. -/
theorem reference_far_from_axis (lon lat h : ℝ) (h1 : -90 ≤ lat) (h2 : lat ≤ 90)
    (h3 : -10000 ≤ h) (_h4 : h ≤ 10000) :
    (create Config.create).eccentricity1 * (create Config.create).major_radius
      < hypot ((create Config.create).geod2ecef ⟨lon, lat, h⟩).x
          ((create Config.create).geod2ecef ⟨lon, lat, h⟩).y := by
  rw [geod2ecef_hypot]
  simp only [reference_latitude]
  have hcos := reference_cos_lat_ge lat h1 h2
  have hN := create_major_le_normal Config.create reference_scale_pos
    (Real.cos (lat * (Real.pi / 240))) (cos_sq_le_one' _)
  have he1 := create_eccentricity1_lt Config.create
  have he1' := create_eccentricity1_pos Config.create
  rw [reference_major_radius] at hN ⊢
  generalize (create Config.create).polar_radius /
    Real.sqrt (1 + (create Config.create).eccentricity2 * Real.cos (lat * (Real.pi / 240)) *
      Real.cos (lat * (Real.pi / 240))) = N at hN ⊢
  have hH : 0 < (N + h) * Real.cos (lat * (Real.pi / 240)) := by
    apply mul_pos <;> linarith
  rw [abs_of_pos hH]
  nlinarith

theorem C10_pipeline_divisions_defined_witness :
    0 < Config.create.scale_factor ∧
    (∀ d ∈ (create Config.create).pipelineDivisors ⟨0, 90, 0⟩, d ≠ 0) ∧
    (∀ r ∈ (create Config.create).pipelineRadicands ⟨0, 90, 0⟩, 0 ≤ r) :=
  ⟨reference_scale_pos, C10_pipeline_divisions_defined Config.create reference_scale_pos
    ⟨0, 90, 0⟩ (reference_far_from_axis 0 90 0 (by norm_num) (by norm_num) (by norm_num)
      (by norm_num))⟩

/-! ## The geodetic round trip -/

theorem pi_mul_degree : Real.pi * degree = 180 := by
  have := mul_radian_mul_degree 180
  rw [← this]
  unfold radian
  ring

/-- C2 fails as stated: with the valid Config of origin `(0, 0, 0)` and scale `1000` the
major radius is `6378.137`; the point of longitude `0`, latitude `0`, height `-10000` lies
beyond the centre, `geod2ecef` sends it to `(-3621.863, 0, 0)`, and `ecef2geod` returns the
longitude `180 / 1000 = 0.18` instead of `0`. -/
theorem C2_counterexample :
    0 < (Config.mk ⟨0, 0, 0⟩ 1000).scale_factor ∧
    ((-180 : ℝ) ≤ 0 ∧ (0 : ℝ) ≤ 180) ∧ ((-90 : ℝ) ≤ 0 ∧ (0 : ℝ) ≤ 90) ∧
    ((-10000 : ℝ) ≤ -10000 ∧ (-10000 : ℝ) ≤ 10000) ∧
    ((create (Config.mk ⟨0, 0, 0⟩ 1000)).ecef2geod
      ((create (Config.mk ⟨0, 0, 0⟩ 1000)).geod2ecef ⟨0, 0, -10000⟩)).x = 9 / 50 ∧
    ¬ (|((create (Config.mk ⟨0, 0, 0⟩ 1000)).ecef2geod
      ((create (Config.mk ⟨0, 0, 0⟩ 1000)).geod2ecef ⟨0, 0, -10000⟩)).x - 0| ≤ 1 / 1000000) := by
  have hN := create_normal_equator (Config.mk ⟨0, 0, 0⟩ 1000)
  have ha : (create (Config.mk ⟨0, 0, 0⟩ 1000)).major_radius = 6378.137 := by
    simp only [create]
    norm_num
  rw [ha] at hN
  have hg : (create (Config.mk ⟨0, 0, 0⟩ 1000)).geod2ecef ⟨0, 0, -10000⟩
      = ⟨-3621.863, 0, 0⟩ := by
    have h0 : ((0 : ℝ) + (0 - 0) * 1000) * radian = 0 := by ring
    apply Point3.eq_of_coords
    · show ((create (Config.mk ⟨0, 0, 0⟩ 1000)).polar_radius /
          Real.sqrt (1 + (create (Config.mk ⟨0, 0, 0⟩ 1000)).eccentricity2 *
            Real.cos (((0 : ℝ) + (0 - 0) * 1000) * radian) *
            Real.cos (((0 : ℝ) + (0 - 0) * 1000) * radian)) + -10000) *
          Real.cos (((0 : ℝ) + (0 - 0) * 1000) * radian) *
          Real.cos (((0 : ℝ) + (0 - 0) * 1000) * radian) = -3621.863
      rw [h0, Real.cos_zero, hN]
      norm_num
    · show _ * Real.sin (((0 : ℝ) + (0 - 0) * 1000) * radian) = 0
      rw [h0, Real.sin_zero, mul_zero]
    · show _ * Real.sin (((0 : ℝ) + (0 - 0) * 1000) * radian) = 0
      rw [h0, Real.sin_zero, mul_zero]
  have harg : atan2 0 (-3621.863) = Real.pi := by
    unfold atan2
    exact Complex.arg_eq_pi_iff.2 ⟨by norm_num, rfl⟩
  have hx : ((create (Config.mk ⟨0, 0, 0⟩ 1000)).ecef2geod
      ((create (Config.mk ⟨0, 0, 0⟩ 1000)).geod2ecef ⟨0, 0, -10000⟩)).x = 9 / 50 := by
    rw [hg]
    show (0 : ℝ) + (atan2 0 (-3621.863) * degree - 0) / 1000 = 9 / 50
    rw [harg, pi_mul_degree]
    norm_num
  refine ⟨by norm_num, by norm_num, by norm_num, by norm_num, hx, ?_⟩
  rw [hx, sub_zero, abs_of_pos (by norm_num : (0 : ℝ) < 9 / 50)]
  norm_num

/-! ## Accuracy of the two-pass latitude refinement -/

theorem abs_arctan_sub_le (x y : ℝ) : |Real.arctan x - Real.arctan y| ≤ |x - y| := by
  have h := Convex.norm_image_sub_le_of_norm_deriv_le (f := Real.arctan) (s := Set.univ)
    (C := 1) (x := y) (y := x)
    (fun t _ => Real.differentiableAt_arctan t)
    (fun t _ => by
      rw [Real.deriv_arctan, Real.norm_eq_abs, abs_of_pos (by positivity)]
      rw [div_le_one (by positivity)]
      nlinarith [sq_nonneg t])
    convex_univ (Set.mem_univ _) (Set.mem_univ _)
  simpa [Real.norm_eq_abs] using h

theorem abs_sin_sub_sin_le (x y : ℝ) : |Real.sin x - Real.sin y| ≤ |x - y| := by
  rw [Real.sin_sub_sin, abs_mul, abs_mul]
  have h1 : |Real.sin ((x - y) / 2)| ≤ |(x - y) / 2| := Real.abs_sin_le_abs
  have h2 : |Real.cos ((x + y) / 2)| ≤ 1 := Real.abs_cos_le_one _
  have h3 : |(x - y) / 2| = |x - y| / 2 := by rw [abs_div]; norm_num
  rw [h3] at h1
  have h4 := abs_nonneg (Real.sin ((x - y) / 2))
  have h5 := abs_nonneg (Real.cos ((x + y) / 2))
  rw [abs_two]
  nlinarith

theorem abs_cos_sub_cos_le (x y : ℝ) : |Real.cos x - Real.cos y| ≤ |x - y| := by
  rw [Real.cos_sub_cos, abs_mul, abs_mul]
  have h1 : |Real.sin ((x - y) / 2)| ≤ |(x - y) / 2| := Real.abs_sin_le_abs
  have h2 : |Real.sin ((x + y) / 2)| ≤ 1 := Real.abs_sin_le_one _
  have h3 : |(x - y) / 2| = |x - y| / 2 := by rw [abs_div]; norm_num
  rw [h3] at h1
  have h4 := abs_nonneg (Real.sin ((x - y) / 2))
  have h5 := abs_nonneg (Real.sin ((x + y) / 2))
  have h6 : |(-2 : ℝ)| = 2 := by norm_num
  rw [h6]
  nlinarith

theorem psi_identity (β γ : ℝ) :
    Real.sin β ^ 3 * Real.cos γ + Real.cos β ^ 3 * Real.sin γ - Real.sin γ * Real.cos γ
      = (1 - Real.cos (β - γ)) *
        ((Real.sin β ^ 2 - Real.cos β ^ 2) * Real.sin (β - γ)
          + Real.sin β * Real.cos β * (1 + 2 * Real.cos (β - γ))) := by
  have hγ : γ = β - (β - γ) := by ring
  generalize β - γ = δ at hγ ⊢
  subst hγ
  rw [Real.sin_sub, Real.cos_sub]
  have h1 := Real.sin_sq_add_cos_sq β
  have h2 := Real.sin_sq_add_cos_sq δ
  linear_combination (Real.sin β * Real.cos β * Real.cos δ
    + Real.sin δ * (Real.sin β ^ 2 - Real.cos β ^ 2)) * h1 + (Real.sin β * Real.cos β) * h2

theorem psi_bound (β γ : ℝ) :
    |Real.sin β ^ 3 * Real.cos γ + Real.cos β ^ 3 * Real.sin γ - Real.sin γ * Real.cos γ|
      ≤ (β - γ) ^ 2 / 2 * (|β - γ| + 3 / 2) := by
  rw [psi_identity, abs_mul]
  have hcos : 0 ≤ 1 - Real.cos (β - γ) := by linarith [Real.cos_le_one (β - γ)]
  have hcos2 : 1 - Real.cos (β - γ) ≤ (β - γ) ^ 2 / 2 := by
    linarith [Real.one_sub_sq_div_two_le_cos (x := β - γ)]
  rw [abs_of_nonneg hcos]
  have h1 := Real.sin_sq_add_cos_sq β
  have hsd : |Real.sin (β - γ)| ≤ |β - γ| := Real.abs_sin_le_abs
  have hA : |Real.sin β ^ 2 - Real.cos β ^ 2| ≤ 1 := by
    rw [abs_le]; constructor <;> nlinarith [sq_nonneg (Real.sin β), sq_nonneg (Real.cos β)]
  have hB : |Real.sin β * Real.cos β| ≤ 1 / 2 := by
    rw [abs_le]; constructor <;>
      nlinarith [sq_nonneg (Real.sin β - Real.cos β), sq_nonneg (Real.sin β + Real.cos β)]
  have hC : |1 + 2 * Real.cos (β - γ)| ≤ 3 := by
    rw [abs_le]; constructor <;>
      linarith [Real.cos_le_one (β - γ), Real.neg_one_le_cos (β - γ)]
  have hsum : |(Real.sin β ^ 2 - Real.cos β ^ 2) * Real.sin (β - γ)
      + Real.sin β * Real.cos β * (1 + 2 * Real.cos (β - γ))| ≤ |β - γ| + 3 / 2 := by
    refine (abs_add _ _).trans ?_
    rw [abs_mul, abs_mul]
    have := abs_nonneg (Real.sin (β - γ))
    have := abs_nonneg (Real.sin β ^ 2 - Real.cos β ^ 2)
    have := abs_nonneg (Real.sin β * Real.cos β)
    have := abs_nonneg (1 + 2 * Real.cos (β - γ))
    nlinarith
  have hnn : 0 ≤ |β - γ| + 3 / 2 := by positivity
  calc (1 - Real.cos (β - γ)) * _ ≤ (1 - Real.cos (β - γ)) * (|β - γ| + 3 / 2) :=
        mul_le_mul_of_nonneg_left hsum hcos
    _ ≤ (β - γ) ^ 2 / 2 * (|β - γ| + 3 / 2) := mul_le_mul_of_nonneg_right hcos2 hnn

theorem cos_arctan_ratio {k c s W : ℝ} (hc : 0 < c) (hW : 0 < W)
    (hW2 : W ^ 2 = c ^ 2 + k ^ 2 * s ^ 2) :
    Real.cos (Real.arctan (k * (s / c))) = c / W ∧
    Real.sin (Real.arctan (k * (s / c))) = k * s / W := by
  have hsq : Real.sqrt (1 + (k * (s / c)) ^ 2) = W / c := by
    rw [show 1 + (k * (s / c)) ^ 2 = (W / c) ^ 2 by
      field_simp
      linear_combination -hW2]
    exact Real.sqrt_sq (by positivity)
  constructor
  · rw [Real.cos_arctan, hsq]
    field_simp
  · rw [Real.sin_arctan, hsq]
    field_simp

theorem refine_error_identity (a k c s W h β : ℝ) (hk : 0 < k) (hc : 0 < c) (hW : 0 < W)
    (hD : (a / W + h) * c - (1 - k ^ 2) * a * Real.cos β ^ 3 ≠ 0) :
    ((h + a / W * k ^ 2) * s + (1 - k ^ 2) * a / k * Real.sin β ^ 3) /
        ((a / W + h) * c - (1 - k ^ 2) * a * Real.cos β ^ 3) - s / c
      = (1 - k ^ 2) * a * (W / k) *
          (Real.sin β ^ 3 * (c / W) + Real.cos β ^ 3 * (k * s / W) - (k * s / W) * (c / W)) /
          (c * ((a / W + h) * c - (1 - k ^ 2) * a * Real.cos β ^ 3)) := by
  have hD' : (a + h * W) * c - W * ((1 - k ^ 2) * a * Real.cos β ^ 3) ≠ 0 := by
    intro h0
    apply hD
    field_simp
    linear_combination h0
  field_simp
  ring

theorem refine_error_bound (a k c s W h β : ℝ) (hk : 0 < k) (hk1 : k ≤ 1) (ha : 0 ≤ a)
    (hc : 0 < c) (hcs : c ^ 2 + s ^ 2 = 1) (hW : 0 < W) (hW2 : W ^ 2 = c ^ 2 + k ^ 2 * s ^ 2)
    (hβ0 : 0 ≤ Real.cos β)
    (hDmin : 0 < (a / W + h) * c - (1 - k ^ 2) * a) :
    |((h + a / W * k ^ 2) * s + (1 - k ^ 2) * a / k * Real.sin β ^ 3) /
        ((a / W + h) * c - (1 - k ^ 2) * a * Real.cos β ^ 3) - s / c|
      ≤ (1 - k ^ 2) * a / (k * c * ((a / W + h) * c - (1 - k ^ 2) * a)) *
          ((β - Real.arctan (k * (s / c))) ^ 2 / 2 *
            (|β - Real.arctan (k * (s / c))| + 3 / 2)) := by
  have he : 0 ≤ (1 - k ^ 2) * a := by
    apply mul_nonneg _ ha
    nlinarith
  have hcos3 : Real.cos β ^ 3 ≤ 1 :=
    calc Real.cos β ^ 3 ≤ 1 ^ 3 := pow_le_pow_left₀ hβ0 (Real.cos_le_one β) 3
      _ = 1 := one_pow 3
  have hcos3' : 0 ≤ Real.cos β ^ 3 := pow_nonneg hβ0 3
  have hDge : (a / W + h) * c - (1 - k ^ 2) * a
      ≤ (a / W + h) * c - (1 - k ^ 2) * a * Real.cos β ^ 3 := by nlinarith
  have hDpos : 0 < (a / W + h) * c - (1 - k ^ 2) * a * Real.cos β ^ 3 :=
    lt_of_lt_of_le hDmin hDge
  have hW1 : W ≤ 1 := by
    have : W ^ 2 ≤ 1 := by
      rw [hW2]
      nlinarith [sq_nonneg s, sq_nonneg k, mul_nonneg (sq_nonneg s) (by nlinarith : 0 ≤ 1 - k ^ 2)]
    nlinarith
  rw [refine_error_identity a k c s W h β hk hc hW hDpos.ne']
  obtain ⟨hcg, hsg⟩ := cos_arctan_ratio (k := k) hc hW hW2
  rw [← hcg, ← hsg]
  have hpsi := psi_bound β (Real.arctan (k * (s / c)))
  set ψ := Real.sin β ^ 3 * Real.cos (Real.arctan (k * (s / c)))
    + Real.cos β ^ 3 * Real.sin (Real.arctan (k * (s / c)))
    - Real.sin (Real.arctan (k * (s / c))) * Real.cos (Real.arctan (k * (s / c))) with hψ
  set B := (β - Real.arctan (k * (s / c))) ^ 2 / 2 * (|β - Real.arctan (k * (s / c))| + 3 / 2)
    with hB
  have hBnn : 0 ≤ B := le_trans (abs_nonneg _) hpsi
  set D := (a / W + h) * c - (1 - k ^ 2) * a * Real.cos β ^ 3 with hDdef
  set Dm := (a / W + h) * c - (1 - k ^ 2) * a with hDm
  rw [abs_div, abs_mul, abs_mul, abs_of_nonneg he, abs_of_pos (div_pos hW hk),
    abs_of_pos (mul_pos hc hDpos)]
  rw [div_le_iff₀ (mul_pos hc hDpos)]
  have h1 : (1 - k ^ 2) * a * (W / k) * |ψ| ≤ (1 - k ^ 2) * a * (1 / k) * B := by
    have hWk : W / k ≤ 1 / k := div_le_div_of_nonneg_right hW1 hk.le
    have : (W / k) * |ψ| ≤ (1 / k) * B :=
      mul_le_mul hWk hpsi (abs_nonneg _) (by positivity)
    calc (1 - k ^ 2) * a * (W / k) * |ψ| = (1 - k ^ 2) * a * ((W / k) * |ψ|) := by ring
      _ ≤ (1 - k ^ 2) * a * ((1 / k) * B) := mul_le_mul_of_nonneg_left this he
      _ = (1 - k ^ 2) * a * (1 / k) * B := by ring
  have h2 : (1 - k ^ 2) * a * (1 / k) * B
      = (1 - k ^ 2) * a / (k * c * Dm) * B * (c * Dm) := by
    field_simp
    ring
  have h3 : (1 - k ^ 2) * a / (k * c * Dm) * B * (c * Dm)
      ≤ (1 - k ^ 2) * a / (k * c * Dm) * B * (c * D) := by
    apply mul_le_mul_of_nonneg_left
    · exact mul_le_mul_of_nonneg_left hDge hc.le
    · apply mul_nonneg _ hBnn
      exact div_nonneg he (by positivity)
  linarith

theorem tangent0_error (c s N h k2 v m : ℝ) (hc : 0 < c) (hNh : 0 < N + h)
    (hk2 : k2 ≤ 1) (hN : 0 ≤ N) (hv0 : 0 ≤ v) (hvm : v ≤ m)
    (hum : (1 - k2) * N / (N + h) * (1 + v) ≤ m) :
    |(h + N * k2) * s / ((N + h) * c) * (1 + v) - s / c| ≤ |s / c| * m := by
  have hu0 : 0 ≤ (1 - k2) * N / (N + h) :=
    div_nonneg (mul_nonneg (by linarith) hN) hNh.le
  have hid : (h + N * k2) * s / ((N + h) * c) * (1 + v) - s / c
      = s / c * ((1 - (1 - k2) * N / (N + h)) * (1 + v) - 1) := by
    field_simp
    ring
  rw [hid, abs_mul]
  apply mul_le_mul_of_nonneg_left _ (abs_nonneg _)
  rw [abs_le]
  constructor <;> nlinarith

theorem hypot_lower (c s N h k2 : ℝ) (hcs : c ^ 2 + s ^ 2 = 1) (hk2 : k2 ≤ 1) (hN : 0 ≤ N)
    (hpos : 0 ≤ h + N * k2) :
    h + N * k2
      ≤ Real.sqrt ((N + h) * c * ((N + h) * c) + (h + N * k2) * s * ((h + N * k2) * s)) := by
  apply Real.le_sqrt_of_sq_le
  have h1 : h + N * k2 ≤ N + h := by nlinarith
  have h2 : (h + N * k2) ^ 2 ≤ (N + h) ^ 2 := by nlinarith
  nlinarith [sq_nonneg c, sq_nonneg s, mul_le_mul_of_nonneg_right h2 (sq_nonneg c)]

/-- Numeric facts shared by the two passes. -/
theorem two_pass_numeric (a k c s W h : ℝ)
    (hk0 : 0.996647 ≤ k) (hk1 : k ≤ 0.996648) (ha0 : 8504182 ≤ a) (ha1 : a ≤ 8504183)
    (hc : 0.38 ≤ c) (hcs : c ^ 2 + s ^ 2 = 1) (hh0 : -10000 ≤ h) (_hh1 : h ≤ 10000)
    (hW : 0 < W) (hW2 : W ^ 2 = c ^ 2 + k ^ 2 * s ^ 2) :
    (a ≤ a / W ∧ a / W ≤ 8532800) ∧
    8437246 ≤ h + a / W * k ^ 2 ∧
    3170853 ≤ (a / W + h) * c - (1 - k ^ 2) * a ∧
    (1 - k ^ 2) * a / (k * c * ((a / W + h) * c - (1 - k ^ 2) * a)) ≤ 0.0475 ∧
    (1 - k ^ 2) * (a / W) / (a / W + h) ≤ 0.00671 ∧
    (1 - k ^ 2) * a / k ≤ 57128 := by
  have hkpos : (0 : ℝ) < k := by linarith
  have hk2lo : 0.993305 ≤ k ^ 2 := by
    have := mul_le_mul hk0 hk0 (by norm_num) hkpos.le
    calc (0.993305 : ℝ) ≤ 0.996647 * 0.996647 := by norm_num
      _ ≤ k * k := this
      _ = k ^ 2 := by ring
  have hk2hi : k ^ 2 ≤ 1 := by
    calc k ^ 2 = k * k := by ring
      _ ≤ 1 * 1 := mul_le_mul (by linarith) (by linarith) hkpos.le (by norm_num)
      _ = 1 := by norm_num
  have he1lo : 0 ≤ 1 - k ^ 2 := by linarith
  have he1hi : 1 - k ^ 2 ≤ 0.006695 := by linarith
  have hcpos : (0 : ℝ) < c := by linarith
  have hW1 : W ≤ 1 := by
    have h1 : W ^ 2 ≤ 1 := by
      rw [hW2]
      have := mul_nonneg (sq_nonneg s) he1lo
      linarith
    by_contra hcon
    push_neg at hcon
    have : 1 < W ^ 2 := by
      calc (1 : ℝ) = 1 * 1 := by norm_num
        _ < W * W := mul_lt_mul hcon hcon.le (by norm_num) hW.le
        _ = W ^ 2 := by ring
    linarith
  have hWk : k ≤ W := by
    have h1 : k ^ 2 ≤ W ^ 2 := by
      rw [hW2]
      have := mul_nonneg (sq_nonneg c) he1lo
      have e : c ^ 2 + k ^ 2 * s ^ 2 = k ^ 2 + c ^ 2 * (1 - k ^ 2) := by
        linear_combination (k ^ 2) * hcs
      linarith
    by_contra hcon
    push_neg at hcon
    have : W ^ 2 < k ^ 2 := by
      calc W ^ 2 = W * W := by ring
        _ < k * k := mul_lt_mul hcon hcon.le hW hkpos.le
        _ = k ^ 2 := by ring
    linarith
  have hapos : (0 : ℝ) < a := by linarith
  have hN0 : a ≤ a / W := by
    rw [le_div_iff₀ hW]
    have := mul_le_mul_of_nonneg_left hW1 hapos.le
    linarith
  have hN1 : a / W ≤ 8532800 := by
    rw [div_le_iff₀ hW]
    linarith
  set N := a / W with hNdef
  have hNpos : (0 : ℝ) < N := by linarith
  have hNk : 8447246 ≤ N * k ^ 2 := by
    have h2 : (8504182 : ℝ) ≤ N := by linarith
    have := mul_le_mul h2 hk2lo (by norm_num) hNpos.le
    calc (8447246 : ℝ) ≤ 8504182 * 0.993305 := by norm_num
      _ ≤ N * k ^ 2 := this
  have hNh0 : (8494182 : ℝ) ≤ N + h := by linarith
  have hP : 3227789 ≤ (N + h) * c := by
    have := mul_le_mul hNh0 hc (by norm_num) (by linarith)
    calc (3227789 : ℝ) ≤ 8494182 * 0.38 := by norm_num
      _ ≤ (N + h) * c := this
  have he1a : (1 - k ^ 2) * a ≤ 56936 := by
    have := mul_le_mul he1hi ha1 hapos.le (by norm_num)
    calc (1 - k ^ 2) * a ≤ 0.006695 * 8504183 := this
      _ ≤ 56936 := by norm_num
  have hDm : 3170853 ≤ (N + h) * c - (1 - k ^ 2) * a := by linarith
  have he1a0 : 0 ≤ (1 - k ^ 2) * a := mul_nonneg he1lo hapos.le
  refine ⟨⟨hN0, hN1⟩, by linarith, hDm, ?_, ?_, ?_⟩
  · have hDpos : (0:ℝ) < (N + h) * c - (1 - k ^ 2) * a := by linarith
    have hden : 0 < k * c * ((N + h) * c - (1 - k ^ 2) * a) := by positivity
    rw [div_le_iff₀ hden]
    have h1 : 0.3787 ≤ k * c := by
      have := mul_le_mul hk0 hc (by norm_num) hkpos.le
      calc (0.3787 : ℝ) ≤ 0.996647 * 0.38 := by norm_num
        _ ≤ k * c := this
    have h2 : 0.3787 * 3170853 ≤ k * c * ((N + h) * c - (1 - k ^ 2) * a) :=
      mul_le_mul h1 hDm (by norm_num) (by positivity)
    calc (1 - k ^ 2) * a ≤ 56936 := he1a
      _ ≤ 0.0475 * (0.3787 * 3170853) := by norm_num
      _ ≤ 0.0475 * (k * c * ((N + h) * c - (1 - k ^ 2) * a)) :=
          mul_le_mul_of_nonneg_left h2 (by norm_num)
  · have hNh : 0 < N + h := by linarith
    rw [div_le_iff₀ hNh]
    have := mul_le_mul_of_nonneg_right he1hi hNpos.le
    linarith
  · rw [div_le_iff₀ hkpos]
    calc (1 - k ^ 2) * a ≤ 56936 := he1a
      _ ≤ 57128 * 0.996647 := by norm_num
      _ ≤ 57128 * k := mul_le_mul_of_nonneg_left hk0 (by norm_num)

theorem cubic_mono {δ d : ℝ} (hδ : |δ| ≤ d) :
    δ ^ 2 / 2 * (|δ| + 3 / 2) ≤ d ^ 2 / 2 * (d + 3 / 2) := by
  have h0 := abs_nonneg δ
  have hsq : δ ^ 2 = |δ| ^ 2 := (sq_abs δ).symm
  rw [hsq]
  have h1 : |δ| ^ 2 ≤ d ^ 2 := pow_le_pow_left₀ h0 hδ 2
  have h2 : |δ| + 3 / 2 ≤ d + 3 / 2 := by linarith
  have h3 : 0 ≤ |δ| ^ 2 / 2 := by positivity
  have h4 : 0 ≤ d + 3 / 2 := by linarith
  calc |δ| ^ 2 / 2 * (|δ| + 3 / 2) ≤ |δ| ^ 2 / 2 * (d + 3 / 2) :=
        mul_le_mul_of_nonneg_left h2 h3
    _ ≤ d ^ 2 / 2 * (d + 3 / 2) := by
        apply mul_le_mul_of_nonneg_right _ h4
        linarith

/-- Two refinement passes bring the tangent within `6e-12` of the true one. -/
theorem two_pass_bound (a k c s W h N P Z e2b e1a t0 t1 t2 : ℝ)
    (hk0 : 0.996647 ≤ k) (hk1 : k ≤ 0.996648) (ha0 : 8504182 ≤ a) (ha1 : a ≤ 8504183)
    (hc : 0.38 ≤ c) (hcs : c ^ 2 + s ^ 2 = 1) (hh0 : -10000 ≤ h) (hh1 : h ≤ 10000)
    (hW : 0 < W) (hW2 : W ^ 2 = c ^ 2 + k ^ 2 * s ^ 2)
    (hN : N = a / W) (hP : P = (N + h) * c) (hZ : Z = (h + N * k ^ 2) * s)
    (he2b : e2b = (1 - k ^ 2) * a / k) (he1a : e1a = (1 - k ^ 2) * a)
    (ht0 : t0 = Z / P * (1 + e2b / Real.sqrt (P * P + Z * Z)))
    (ht1 : t1 = (Z + e2b * Real.sin (Real.arctan (t0 * k)) ^ 3) /
      (P - e1a * Real.cos (Real.arctan (t0 * k)) ^ 3))
    (ht2 : t2 = (Z + e2b * Real.sin (Real.arctan (t1 * k)) ^ 3) /
      (P - e1a * Real.cos (Real.arctan (t1 * k)) ^ 3)) :
    |t2 - s / c| ≤ 6e-12 := by
  obtain ⟨⟨hN0, hN1⟩, hNk, hDm, hK, hu, hb⟩ :=
    two_pass_numeric a k c s W h hk0 hk1 ha0 ha1 hc hcs hh0 hh1 hW hW2
  have hkpos : (0 : ℝ) < k := by linarith
  have hk2hi : k ^ 2 ≤ 1 := by
    calc k ^ 2 = k * k := by ring
      _ ≤ 1 * 1 := mul_le_mul (by linarith) (by linarith) hkpos.le (by norm_num)
      _ = 1 := by norm_num
  have hcpos : (0 : ℝ) < c := by linarith
  have hapos : (0 : ℝ) < a := by linarith
  rw [← hN] at hN0 hN1 hNk hDm hK hu
  have hNpos : (0 : ℝ) < N := by linarith
  have hNh : 0 < N + h := by linarith
  have he2b0 : 0 ≤ e2b := by
    rw [he2b]
    exact div_nonneg (mul_nonneg (by linarith) hapos.le) hkpos.le
  rw [← he2b] at hb
  -- the first estimate
  have hr : h + N * k ^ 2 ≤ Real.sqrt (P * P + Z * Z) := by
    rw [hP, hZ]
    exact hypot_lower c s N h (k ^ 2) hcs hk2hi hNpos.le (by linarith)
  have hrpos : 0 < Real.sqrt (P * P + Z * Z) := by linarith
  have hv0 : 0 ≤ e2b / Real.sqrt (P * P + Z * Z) := div_nonneg he2b0 hrpos.le
  have hv1 : e2b / Real.sqrt (P * P + Z * Z) ≤ 0.00678 := by
    rw [div_le_iff₀ hrpos]
    calc e2b ≤ 57128 := hb
      _ ≤ 0.00678 * 8437246 := by norm_num
      _ ≤ 0.00678 * Real.sqrt (P * P + Z * Z) :=
          mul_le_mul_of_nonneg_left (by linarith) (by norm_num)
  have hu0 : 0 ≤ (1 - k ^ 2) * N / (N + h) :=
    div_nonneg (mul_nonneg (by linarith) hNpos.le) hNh.le
  have hum : (1 - k ^ 2) * N / (N + h) * (1 + e2b / Real.sqrt (P * P + Z * Z)) ≤ 0.0068 := by
    calc (1 - k ^ 2) * N / (N + h) * (1 + e2b / Real.sqrt (P * P + Z * Z))
        ≤ 0.00671 * (1 + 0.00678) :=
          mul_le_mul hu (by linarith) (by linarith) (by norm_num)
      _ ≤ 0.0068 := by norm_num
  have hs1 : |s| ≤ 1 :=
    (sq_le_one_iff_abs_le_one s).1 (by linarith [sq_nonneg c])
  have hsc : |s / c| ≤ 1 / 0.38 := by
    rw [abs_div, abs_of_pos hcpos]
    exact div_le_div₀ (by norm_num) hs1 (by norm_num) hc
  have h0 : |t0 - s / c| ≤ 0.0179 := by
    have := tangent0_error c s N h (k ^ 2) (e2b / Real.sqrt (P * P + Z * Z)) 0.0068 hcpos hNh
      hk2hi hNpos.le hv0 (by linarith) hum
    rw [ht0, hZ, hP]
    rw [hZ, hP] at this
    calc _ ≤ |s / c| * 0.0068 := this
      _ ≤ 1 / 0.38 * 0.0068 := mul_le_mul_of_nonneg_right hsc (by norm_num)
      _ ≤ 0.0179 := by norm_num
  -- the angle error after an estimate within `e` of the true tangent
  have hang : ∀ t e : ℝ, |t - s / c| ≤ e →
      |Real.arctan (t * k) - Real.arctan (k * (s / c))| ≤ e := by
    intro t e hte
    calc |Real.arctan (t * k) - Real.arctan (k * (s / c))|
        ≤ |t * k - k * (s / c)| := abs_arctan_sub_le _ _
      _ = k * |t - s / c| := by
          rw [show t * k - k * (s / c) = k * (t - s / c) by ring, abs_mul, abs_of_pos hkpos]
      _ ≤ 1 * |t - s / c| := mul_le_mul_of_nonneg_right (by linarith) (abs_nonneg _)
      _ = |t - s / c| := one_mul _
      _ ≤ e := hte
  -- one refinement step
  have hstep : ∀ t d : ℝ, |t - s / c| ≤ d →
      |(Z + e2b * Real.sin (Real.arctan (t * k)) ^ 3) /
        (P - e1a * Real.cos (Real.arctan (t * k)) ^ 3) - s / c|
        ≤ 0.0475 * (d ^ 2 / 2 * (d + 3 / 2)) := by
    intro t d htd
    have hd0 : 0 ≤ d := le_trans (abs_nonneg _) htd
    have hb := refine_error_bound a k c s W h (Real.arctan (t * k)) hkpos (by linarith)
      hapos.le hcpos hcs hW hW2 (Real.cos_arctan_pos _).le (by rw [← hN]; linarith)
    rw [← hN] at hb
    rw [hZ, hP, he2b, he1a]
    refine hb.trans ?_
    have hcub := cubic_mono (hang t d htd)
    have hnn : 0 ≤ d ^ 2 / 2 * (d + 3 / 2) := by positivity
    calc _ ≤ (1 - k ^ 2) * a / (k * c * ((N + h) * c - (1 - k ^ 2) * a)) *
          (d ^ 2 / 2 * (d + 3 / 2)) :=
          mul_le_mul_of_nonneg_left hcub (by
            apply div_nonneg (mul_nonneg (by linarith) hapos.le)
            have : 0 < (N + h) * c - (1 - k ^ 2) * a := by linarith
            positivity)
      _ ≤ 0.0475 * (d ^ 2 / 2 * (d + 3 / 2)) := mul_le_mul_of_nonneg_right hK hnn
  have h1 : |t1 - s / c| ≤ 1.2e-5 := by
    rw [ht1]
    refine (hstep t0 0.0179 h0).trans ?_
    norm_num
  rw [ht2]
  refine (hstep t1 1.2e-5 h1).trans ?_
  norm_num

/-! ## The code's expressions in closed form -/

theorem ecef2geod_eq (g : Georef) (q : Point3 ℝ) :
    g.ecef2geod q =
      ⟨g.origin.x + (atan2 q.y q.x * degree - g.origin.x) / g.scale_factor,
        g.origin.y + (Real.arctan (g.tangent (hypot q.x q.y) q.z) * degree - g.origin.y)
          / g.scale_factor,
        if |g.tangent (hypot q.x q.y) q.z| ≤ 1 then
          hypot q.x q.y /
              (if Real.arctan (g.tangent (hypot q.x q.y) q.z) = Real.pi / 2 then 1
                else Real.cos (Real.arctan (g.tangent (hypot q.x q.y) q.z)))
            - g.normal (if Real.arctan (g.tangent (hypot q.x q.y) q.z) = Real.pi / 2 then 1
                else Real.cos (Real.arctan (g.tangent (hypot q.x q.y) q.z)))
        else
          q.z /
              (if Real.arctan (g.tangent (hypot q.x q.y) q.z) = 0 then 1
                else Real.sin (Real.arctan (g.tangent (hypot q.x q.y) q.z)))
            - g.normal (if Real.arctan (g.tangent (hypot q.x q.y) q.z) = Real.pi / 2 then 1
                else Real.cos (Real.arctan (g.tangent (hypot q.x q.y) q.z)))
              * (1 - g.eccentricity1)⟩ := rfl

theorem geod2ecef_eq (g : Georef) (p : Point3 ℝ) :
    g.geod2ecef p =
      ⟨(g.normal (Real.cos ((g.origin.y + (p.y - g.origin.y) * g.scale_factor) * radian)) + p.z)
          * Real.cos ((g.origin.y + (p.y - g.origin.y) * g.scale_factor) * radian)
          * Real.cos ((g.origin.x + (p.x - g.origin.x) * g.scale_factor) * radian),
        (g.normal (Real.cos ((g.origin.y + (p.y - g.origin.y) * g.scale_factor) * radian)) + p.z)
          * Real.cos ((g.origin.y + (p.y - g.origin.y) * g.scale_factor) * radian)
          * Real.sin ((g.origin.x + (p.x - g.origin.x) * g.scale_factor) * radian),
        (p.z + g.normal (Real.cos ((g.origin.y + (p.y - g.origin.y) * g.scale_factor) * radian))
            * (1 - g.eccentricity1))
          * Real.sin ((g.origin.y + (p.y - g.origin.y) * g.scale_factor) * radian)⟩ := rfl

theorem create_eccentricity1_eq (config : Config) :
    (create config).eccentricity1 = 1 - (1 - 1 / 298.257223563) ^ 2 := by
  simp only [create]
  ring

theorem create_e1_major (config : Config) :
    (create config).eccentricity1 * (create config).major_radius
      = (1 - (1 - 1 / 298.257223563) ^ 2) * (create config).major_radius := by
  rw [create_eccentricity1_eq]

theorem create_e2_minor (config : Config) :
    (create config).eccentricity2 * (create config).minor_radius
      = (1 - (1 - 1 / 298.257223563) ^ 2) * (create config).major_radius
          / (1 - 1 / 298.257223563) := by
  show (1 / 298.257223563 * (2 - 1 / 298.257223563)
      / (1 - 1 / 298.257223563 * (2 - 1 / 298.257223563)))
      * ((create config).major_radius * (1 - 1 / 298.257223563)) = _
  generalize (create config).major_radius = a
  norm_num
  ring

/-- The normal radius as a function of the latitude's cosine and sine. -/
theorem create_normal_eq (config : Config) (c s : ℝ) (hcs : c ^ 2 + s ^ 2 = 1) :
    (create config).normal c
      = (create config).major_radius
          / Real.sqrt (c ^ 2 + (1 - 1 / 298.257223563) ^ 2 * s ^ 2) := by
  have hk : (0 : ℝ) < 1 - 1 / 298.257223563 := by norm_num
  have hrad : 1 + (create config).eccentricity2 * c * c
      = (c ^ 2 + (1 - 1 / 298.257223563) ^ 2 * s ^ 2) / (1 - 1 / 298.257223563) ^ 2 := by
    have hs : s ^ 2 = 1 - c ^ 2 := by linarith
    rw [hs]
    show 1 + (1 / 298.257223563 * (2 - 1 / 298.257223563)
      / (1 - 1 / 298.257223563 * (2 - 1 / 298.257223563))) * c * c = _
    field_simp
    ring
  unfold normal
  rw [hrad, Real.sqrt_div' _ (by positivity), Real.sqrt_sq hk.le]
  show (create config).major_radius / (1 - 1 / 298.257223563) / _ = _
  field_simp




/-- With the reference Config, for a latitude in `[-90, 90]` and a height in `[-1e4, 1e4]`,
the final `tangent` of `ecef2geod` on the `geod2ecef` image is within `6e-12` of the
tangent of the scaled latitude. -/
theorem reference_tangent_error (lat h : ℝ) (h1 : -90 ≤ lat) (h2 : lat ≤ 90)
    (h3 : -10000 ≤ h) (h4 : h ≤ 10000) :
    |(create Config.create).tangent
        (((create Config.create).normal (Real.cos (lat * (Real.pi / 240))) + h)
          * Real.cos (lat * (Real.pi / 240)))
        ((h + (create Config.create).normal (Real.cos (lat * (Real.pi / 240)))
            * (1 - (create Config.create).eccentricity1))
          * Real.sin (lat * (Real.pi / 240)))
      - Real.sin (lat * (Real.pi / 240)) / Real.cos (lat * (Real.pi / 240))| ≤ 6e-12 := by
  have hc := reference_cos_lat_ge lat h1 h2
  have hcs : Real.cos (lat * (Real.pi / 240)) ^ 2 + Real.sin (lat * (Real.pi / 240)) ^ 2 = 1 :=
    Real.cos_sq_add_sin_sq _
  have hN := create_normal_eq Config.create _ _ hcs
  have he1 := create_eccentricity1_eq Config.create
  have he1a := create_e1_major Config.create
  have he2b := create_e2_minor Config.create
  have hf : 1 - (create Config.create).flattening = 1 - 1 / 298.257223563 := rfl
  have ha := reference_major_radius
  generalize Real.cos (lat * (Real.pi / 240)) = c at *
  generalize Real.sin (lat * (Real.pi / 240)) = s at *
  have hk0 : (0.996647 : ℝ) ≤ 1 - 1 / 298.257223563 := by norm_num
  have hk1 : (1 - 1 / 298.257223563 : ℝ) ≤ 0.996648 := by norm_num
  generalize (1 - 1 / 298.257223563 : ℝ) = k at *
  have hkpos : (0 : ℝ) < k := by linarith
  have hc' : (0.38 : ℝ) ≤ c := by linarith
  have hWpos : 0 < Real.sqrt (c ^ 2 + k ^ 2 * s ^ 2) := by
    apply Real.sqrt_pos.2
    have : (0 : ℝ) < c := by linarith
    positivity
  have hW2 : Real.sqrt (c ^ 2 + k ^ 2 * s ^ 2) ^ 2 = c ^ 2 + k ^ 2 * s ^ 2 :=
    Real.sq_sqrt (by positivity)
  have hZ : (h + (create Config.create).normal c * (1 - (create Config.create).eccentricity1)) * s
      = (h + (create Config.create).normal c * k ^ 2) * s := by
    rw [he1]
    ring
  rw [hZ]
  exact two_pass_bound ((create Config.create).major_radius) k c s
    (Real.sqrt (c ^ 2 + k ^ 2 * s ^ 2)) h ((create Config.create).normal c)
    (((create Config.create).normal c + h) * c)
    ((h + (create Config.create).normal c * k ^ 2) * s)
    ((create Config.create).eccentricity2 * (create Config.create).minor_radius)
    ((create Config.create).eccentricity1 * (create Config.create).major_radius)
    _ _ _ hk0 hk1 (by rw [ha]; norm_num) (by rw [ha]; norm_num) hc' hcs h3 h4 hWpos hW2 hN rfl
    rfl he2b he1a rfl (by rw [← hf]) (by rw [← hf]; rfl)

/-! ## Longitude and height of the round trip -/

theorem hypot_mul_cos_sin {P : ℝ} (hP : 0 ≤ P) (L : ℝ) :
    hypot (P * Real.cos L) (P * Real.sin L) = P := by
  unfold hypot
  have h := Real.sin_sq_add_cos_sq L
  rw [show P * Real.cos L * (P * Real.cos L) + P * Real.sin L * (P * Real.sin L) = P ^ 2 by
    linear_combination (P ^ 2) * h]
  exact Real.sqrt_sq hP

theorem atan2_mul_sin_cos {P : ℝ} (hP : 0 < P) {L : ℝ} (h1 : -Real.pi < L) (h2 : L ≤ Real.pi) :
    atan2 (P * Real.sin L) (P * Real.cos L) = L := by
  unfold atan2
  have h := Complex.arg_mul_cos_add_sin_mul_I hP (θ := L) ⟨h1, h2⟩
  have hz : Complex.mk (P * Real.cos L) (P * Real.sin L)
      = (P : ℂ) * (Complex.cos L + Complex.sin L * Complex.I) := by
    apply Complex.ext
    · simp [Complex.cos_ofReal_re, Complex.sin_ofReal_im]
    · simp [Complex.sin_ofReal_re, Complex.cos_ofReal_im]
  rw [hz]
  exact h

theorem normal_diff_bound (polar e2 C c : ℝ) (hpol : 0 ≤ polar) (he2 : 0 ≤ e2)
    (hC : |C| ≤ 1) (hc : |c| ≤ 1) :
    |polar / Real.sqrt (1 + e2 * C * C) - polar / Real.sqrt (1 + e2 * c * c)|
      ≤ polar * e2 * |C - c| := by
  have hq1 : 1 ≤ Real.sqrt (1 + e2 * C * C) := by
    rw [Real.one_le_sqrt]
    nlinarith [mul_self_nonneg C]
  have hq2 : 1 ≤ Real.sqrt (1 + e2 * c * c) := by
    rw [Real.one_le_sqrt]
    nlinarith [mul_self_nonneg c]
  have hs1 : Real.sqrt (1 + e2 * C * C) ^ 2 = 1 + e2 * C * C :=
    Real.sq_sqrt (by nlinarith [mul_self_nonneg C])
  have hs2 : Real.sqrt (1 + e2 * c * c) ^ 2 = 1 + e2 * c * c :=
    Real.sq_sqrt (by nlinarith [mul_self_nonneg c])
  set q1 := Real.sqrt (1 + e2 * C * C)
  set q2 := Real.sqrt (1 + e2 * c * c)
  have hq1p : 0 < q1 := by linarith
  have hq2p : 0 < q2 := by linarith
  have hid : polar / q1 - polar / q2
      = polar * (e2 * ((c - C) * (c + C))) / ((q1 + q2) * (q1 * q2)) := by
    field_simp
    linear_combination (-(polar * q2 * q1)) * hs1 + (polar * q1 * q2) * hs2
  rw [hid, abs_div, abs_mul, abs_mul, abs_mul, abs_of_nonneg hpol, abs_of_nonneg he2,
    abs_of_pos (by positivity : 0 < (q1 + q2) * (q1 * q2))]
  rw [div_le_iff₀ (by positivity)]
  have hsum : |c + C| ≤ 2 := (abs_add _ _).trans (by linarith)
  have hden : 2 ≤ (q1 + q2) * (q1 * q2) := by nlinarith [mul_pos hq1p hq2p]
  have hsym : |c - C| = |C - c| := abs_sub_comm c C
  rw [hsym]
  have h0 := abs_nonneg (C - c)
  have hA : |C - c| * |c + C| ≤ |C - c| * 2 := mul_le_mul_of_nonneg_left hsum h0
  have hB : polar * e2 * |C - c| * 2 ≤ polar * e2 * |C - c| * ((q1 + q2) * (q1 * q2)) :=
    mul_le_mul_of_nonneg_left hden (by positivity)
  have hC' : polar * (e2 * (|C - c| * |c + C|)) ≤ polar * (e2 * (|C - c| * 2)) :=
    mul_le_mul_of_nonneg_left (mul_le_mul_of_nonneg_left hA he2) hpol
  linarith

theorem cos_arctan_ge_of_abs_le_one {T : ℝ} (hT : |T| ≤ 1) :
    (7 / 10 : ℝ) ≤ Real.cos (Real.arctan T) := by
  have hpos := Real.cos_arctan_pos T
  have hsq := Real.cos_sq_arctan T
  have hT2 : T ^ 2 ≤ 1 := (sq_le_one_iff_abs_le_one T).2 hT
  have h2 : (1 / 2 : ℝ) ≤ Real.cos (Real.arctan T) ^ 2 := by
    rw [hsq, div_le_div_iff₀ (by norm_num) (by positivity)]
    linarith
  by_contra hcon
  push_neg at hcon
  have : Real.cos (Real.arctan T) ^ 2 < (7 / 10) ^ 2 := pow_lt_pow_left₀ hcon hpos.le (by norm_num)
  norm_num at this
  linarith

theorem abs_sin_arctan_ge_of_one_lt_abs {T : ℝ} (hT : 1 < |T|) :
    (7 / 10 : ℝ) ≤ |Real.sin (Real.arctan T)| := by
  have hsq := Real.cos_sq_arctan T
  have hsc := Real.sin_sq_add_cos_sq (Real.arctan T)
  have hT2 : 1 < T ^ 2 := by
    have := mul_lt_mul hT hT.le (by norm_num) (abs_nonneg T)
    rw [← sq_abs]
    nlinarith
  have h2 : Real.cos (Real.arctan T) ^ 2 ≤ 1 / 2 := by
    rw [hsq, div_le_div_iff₀ (by positivity) (by norm_num)]
    linarith
  have h3 : (1 / 2 : ℝ) ≤ |Real.sin (Real.arctan T)| ^ 2 := by
    rw [sq_abs]
    linarith
  by_contra hcon
  push_neg at hcon
  have : |Real.sin (Real.arctan T)| ^ 2 < (7 / 10) ^ 2 :=
    pow_lt_pow_left₀ hcon (abs_nonneg _) (by norm_num)
  norm_num at this
  linarith

theorem height_branch_bound (M x X Nt N k2 ε : ℝ) (hM : 0 ≤ M) (hk2 : 0 ≤ k2)
    (hX : 7 / 10 ≤ |X|) (hx : |X - x| ≤ ε) :
    |M * x / X - Nt * k2 - (M - N * k2)| ≤ M * (ε * (10 / 7)) + |Nt - N| * k2 := by
  have hXpos : 0 < |X| := by linarith
  have hXne : X ≠ 0 := abs_pos.1 hXpos
  have hid : M * x / X - Nt * k2 - (M - N * k2) = M * ((x - X) / X) - (Nt - N) * k2 := by
    field_simp
    ring
  rw [hid]
  refine (abs_sub _ _).trans ?_
  rw [abs_mul, abs_mul, abs_of_nonneg hM, abs_of_nonneg hk2, abs_div]
  have h1 : |x - X| / |X| ≤ ε * (10 / 7) := by
    rw [div_le_iff₀ hXpos, abs_sub_comm]
    have hε : 0 ≤ ε := le_trans (abs_nonneg _) hx
    nlinarith
  have := mul_le_mul_of_nonneg_left h1 hM
  linarith

/-! ## The round trip of the reference Config -/

/-- The scaled longitude of the reference Config: `lon * 0.75`, in radians. -/
theorem reference_longitude (lon : ℝ) :
    ((create Config.create).origin.x + (lon - (create Config.create).origin.x)
      * (create Config.create).scale_factor) * radian = lon * (Real.pi / 240) := by
  rw [reference_scale, reference_origin]
  unfold radian
  ring

theorem reference_polar_radius_le : (create Config.create).polar_radius ≤ 8532800 := by
  simp only [create, Config.create]
  norm_num

theorem reference_polar_radius_pos : 0 < (create Config.create).polar_radius :=
  create_polar_radius_pos Config.create reference_scale_pos

theorem degree_pos : 0 < degree := by
  unfold degree
  exact one_div_pos.2 radian_pos

theorem degree_le : degree ≤ 60 := by
  have h := pi_mul_degree
  have hpi := Real.pi_gt_three
  have hd := degree_pos
  nlinarith

/-- Un-scaling an angle of the reference Config: `(v * (π / 240)) * degree / 0.75 = v`. -/
theorem reference_unscale (v : ℝ) :
    (create Config.create).origin.x
      + (v * (Real.pi / 240) * degree - (create Config.create).origin.x)
        / (create Config.create).scale_factor = v := by
  rw [reference_scale, reference_origin]
  have h := pi_mul_degree
  have : v * (Real.pi / 240) * degree = v * (3 / 4) := by
    linear_combination (v / 240) * h
  rw [this]
  norm_num




/-- The geodetic round trip of the reference Config: for a longitude in `[-180, 180]`, a
latitude in `[-90, 90]` and a height in `[-1e4, 1e4]`, `ecef2geod` after `geod2ecef` returns
the longitude exactly, the latitude within `1e-9` degrees and the height within `1e-4`. -/
theorem reference_roundtrip (lon lat h : ℝ) (hl1 : -180 ≤ lon) (hl2 : lon ≤ 180)
    (h1 : -90 ≤ lat) (h2 : lat ≤ 90) (h3 : -10000 ≤ h) (h4 : h ≤ 10000) :
    ((create Config.create).ecef2geod ((create Config.create).geod2ecef ⟨lon, lat, h⟩)).x = lon ∧
    |((create Config.create).ecef2geod ((create Config.create).geod2ecef ⟨lon, lat, h⟩)).y - lat|
      ≤ 1e-9 ∧
    |((create Config.create).ecef2geod ((create Config.create).geod2ecef ⟨lon, lat, h⟩)).z - h|
      ≤ 1e-4 := by
  have hpi := Real.pi_pos
  have hc := reference_cos_lat_ge lat h1 h2
  have hT := reference_tangent_error lat h h1 h2 h3 h4
  have hNlo := create_major_le_normal Config.create reference_scale_pos
    (Real.cos (lat * (Real.pi / 240))) (cos_sq_le_one' _)
  have hNhi := create_normal_le_polar Config.create reference_scale_pos
    (Real.cos (lat * (Real.pi / 240)))
  have hpol := reference_polar_radius_le
  have hpol0 := reference_polar_radius_pos
  have he1lo := create_eccentricity1_pos Config.create
  have he1hi := create_eccentricity1_lt Config.create
  have he2lo := create_eccentricity2_pos Config.create
  have he2hi := create_eccentricity2_lt Config.create
  rw [reference_major_radius] at hNlo
  -- the image of `geod2ecef`
  have hq : (create Config.create).geod2ecef ⟨lon, lat, h⟩ =
      ⟨((create Config.create).normal (Real.cos (lat * (Real.pi / 240))) + h)
          * Real.cos (lat * (Real.pi / 240)) * Real.cos (lon * (Real.pi / 240)),
        ((create Config.create).normal (Real.cos (lat * (Real.pi / 240))) + h)
          * Real.cos (lat * (Real.pi / 240)) * Real.sin (lon * (Real.pi / 240)),
        (h + (create Config.create).normal (Real.cos (lat * (Real.pi / 240)))
            * (1 - (create Config.create).eccentricity1))
          * Real.sin (lat * (Real.pi / 240))⟩ := by
    rw [geod2ecef_eq]
    simp only [reference_latitude, reference_longitude]
  have hBlt : lat * (Real.pi / 240) < Real.pi / 2 := by nlinarith
  have hBgt : -(Real.pi / 2) < lat * (Real.pi / 240) := by nlinarith
  have hBarc : Real.arctan (Real.sin (lat * (Real.pi / 240)) / Real.cos (lat * (Real.pi / 240)))
      = lat * (Real.pi / 240) := by
    rw [← Real.tan_eq_sin_div_cos]
    exact Real.arctan_tan hBgt hBlt
  have hcosB : Real.cos (Real.arctan
      (Real.sin (lat * (Real.pi / 240)) / Real.cos (lat * (Real.pi / 240))))
      = Real.cos (lat * (Real.pi / 240)) := by rw [hBarc]
  have hsinB : Real.sin (Real.arctan
      (Real.sin (lat * (Real.pi / 240)) / Real.cos (lat * (Real.pi / 240))))
      = Real.sin (lat * (Real.pi / 240)) := by rw [hBarc]
  change _ ≤ (create Config.create).normal (Real.cos (lat * (Real.pi / 240))) at hNlo
  change (create Config.create).normal (Real.cos (lat * (Real.pi / 240))) ≤ _ at hNhi
  generalize hNdef : (create Config.create).normal (Real.cos (lat * (Real.pi / 240))) = N at *
  generalize hcdef : Real.cos (lat * (Real.pi / 240)) = c at *
  generalize hsdef : Real.sin (lat * (Real.pi / 240)) = s at *
  have hPpos : 0 < (N + h) * c := by
    apply mul_pos <;> linarith
  have hhyp : hypot ((N + h) * c * Real.cos (lon * (Real.pi / 240)))
      ((N + h) * c * Real.sin (lon * (Real.pi / 240))) = (N + h) * c :=
    hypot_mul_cos_sin hPpos.le _
  have hatan : atan2 ((N + h) * c * Real.sin (lon * (Real.pi / 240)))
      ((N + h) * c * Real.cos (lon * (Real.pi / 240))) = lon * (Real.pi / 240) :=
    atan2_mul_sin_cos hPpos (by nlinarith) (by nlinarith)
  rw [hq, ecef2geod_eq]
  simp only [hhyp, hatan]
  generalize hTdef : (create Config.create).tangent ((N + h) * c)
    ((h + N * (1 - (create Config.create).eccentricity1)) * s) = T at *
  have hang : |Real.arctan T - lat * (Real.pi / 240)| ≤ 6e-12 := by
    rw [← hBarc]
    exact (abs_arctan_sub_le _ _).trans hT
  have hneq : Real.arctan T ≠ Real.pi / 2 := (Real.arctan_lt_pi_div_two T).ne
  rw [if_neg hneq]
  refine ⟨reference_unscale lon, ?_, ?_⟩
  · -- latitude
    have hd0 := degree_pos
    have hd1 := degree_le
    have hlat := reference_unscale lat
    have hy : (create Config.create).origin.y
        + (Real.arctan T * degree - (create Config.create).origin.y)
          / (create Config.create).scale_factor - lat
        = (Real.arctan T - lat * (Real.pi / 240)) * degree * (4 / 3) := by
      rw [reference_scale, reference_origin]
      have := pi_mul_degree
      show (0 : ℝ) + (Real.arctan T * degree - 0) / (3 / 4) - lat
        = (Real.arctan T - lat * (Real.pi / 240)) * degree * (4 / 3)
      linear_combination (lat / 180) * this
    rw [hy, abs_mul, abs_mul, abs_of_pos hd0, abs_of_pos (by norm_num : (0 : ℝ) < 4 / 3)]
    have h0 := abs_nonneg (Real.arctan T - lat * (Real.pi / 240))
    calc |Real.arctan T - lat * (Real.pi / 240)| * degree * (4 / 3)
        ≤ 6e-12 * 60 * (4 / 3) := by
          apply mul_le_mul_of_nonneg_right _ (by norm_num)
          exact mul_le_mul hang hd1 hd0.le (by norm_num)
      _ ≤ 1e-9 := by norm_num
  · -- height
    have hC : |Real.cos (Real.arctan T) - c| ≤ 6e-12 := by
      rw [← hcosB]
      exact (abs_cos_sub_cos_le _ _).trans ((abs_arctan_sub_le _ _).trans hT)
    have hS : |Real.sin (Real.arctan T) - s| ≤ 6e-12 := by
      rw [← hsinB]
      exact (abs_sin_sub_sin_le _ _).trans ((abs_arctan_sub_le _ _).trans hT)
    have hc1 : |c| ≤ 1 := by rw [← hcdef]; exact Real.abs_cos_le_one _
    have hNd : |(create Config.create).normal (Real.cos (Real.arctan T)) - N|
        ≤ 8532800 * (68 / 10000) * 6e-12 := by
      rw [← hNdef, ← hcdef]
      unfold normal
      refine (normal_diff_bound _ _ _ _ hpol0.le he2lo.le (Real.abs_cos_le_one _)
        (Real.abs_cos_le_one _)).trans ?_
      rw [hcdef]
      have := abs_nonneg (Real.cos (Real.arctan T) - c)
      exact mul_le_mul (mul_le_mul hpol he2hi.le he2lo.le (by norm_num)) hC this
        (by norm_num)
    generalize (create Config.create).normal (Real.cos (Real.arctan T)) = Nt at *
    generalize (create Config.create).eccentricity1 = e1 at *
    split_ifs with hb h0
    · -- `|tangent| ≤ 1`
      have hX := cos_arctan_ge_of_abs_le_one hb
      have hXa : 7 / 10 ≤ |Real.cos (Real.arctan T)| := hX.trans (le_abs_self _)
      have hbd := height_branch_bound (N + h) c (Real.cos (Real.arctan T)) Nt N 1 6e-12
        (by linarith) (by norm_num) hXa hC
      have hid : (N + h) * c / Real.cos (Real.arctan T) - Nt - h
          = (N + h) * c / Real.cos (Real.arctan T) - Nt * 1 - (N + h - N * 1) := by ring
      rw [hid]
      refine hbd.trans ?_
      have hM : (N + h) * (6e-12 * (10 / 7)) ≤ 8542800 * (6e-12 * (10 / 7)) :=
        mul_le_mul_of_nonneg_right (by linarith) (by norm_num)
      norm_num at hM hNd ⊢
      linarith
    · -- `|tangent| > 1` with `latitude = 0`: impossible
      exfalso
      rw [Real.arctan_eq_zero_iff] at h0
      rw [h0] at hb
      simp at hb
    · -- `|tangent| > 1`
      have hXa := abs_sin_arctan_ge_of_one_lt_abs (not_le.1 hb)
      have hk2 : 0 ≤ 1 - e1 := by linarith
      have hN0 : (0 : ℝ) ≤ N := by linarith
      have hNe1 : N * (99 / 100) ≤ N * (1 - e1) :=
        mul_le_mul_of_nonneg_left (by linarith) hN0
      have hNe2 : N * (1 - e1) ≤ N * 1 := mul_le_mul_of_nonneg_left (by linarith) hN0
      have hbd := height_branch_bound (h + N * (1 - e1)) s (Real.sin (Real.arctan T)) Nt N
        (1 - e1) 6e-12 (by linarith) hk2 hXa hS
      have hid : (h + N * (1 - e1)) * s / Real.sin (Real.arctan T) - Nt * (1 - e1) - h
          = (h + N * (1 - e1)) * s / Real.sin (Real.arctan T) - Nt * (1 - e1)
            - (h + N * (1 - e1) - N * (1 - e1)) := by ring
      rw [hid]
      refine hbd.trans ?_
      have hMle : h + N * (1 - e1) ≤ 8542800 := by linarith
      have hM : (h + N * (1 - e1)) * (6e-12 * (10 / 7)) ≤ 8542800 * (6e-12 * (10 / 7)) :=
        mul_le_mul_of_nonneg_right hMle (by norm_num)
      have hNk : |Nt - N| * (1 - e1) ≤ |Nt - N| * 1 :=
        mul_le_mul_of_nonneg_left (by linarith) (abs_nonneg _)
      norm_num at hM hNd hNk ⊢
      linarith

/-- C2 (geodetic round trip, as it holds on the code): for the Georef of the reference
Config (origin `(0, 0, 0)`, scale `0.75`) and every point with longitude in `[-180, 180]`,
latitude in `[-90, 90]` and height in `[-1e4, 1e4]`, `ecef2geod` applied to `geod2ecef` of the
point returns longitude and latitude within `1e-6` degrees and height within `1e-3`. -/
theorem C2_reference_round_trip (lon lat h : ℝ) (hl1 : -180 ≤ lon) (hl2 : lon ≤ 180)
    (h1 : -90 ≤ lat) (h2 : lat ≤ 90) (h3 : -10000 ≤ h) (h4 : h ≤ 10000) :
    |((create Config.create).ecef2geod ((create Config.create).geod2ecef ⟨lon, lat, h⟩)).x - lon|
      ≤ 1e-6 ∧
    |((create Config.create).ecef2geod ((create Config.create).geod2ecef ⟨lon, lat, h⟩)).y - lat|
      ≤ 1e-6 ∧
    |((create Config.create).ecef2geod ((create Config.create).geod2ecef ⟨lon, lat, h⟩)).z - h|
      ≤ 1e-3 := by
  obtain ⟨hx, hy, hz⟩ := reference_roundtrip lon lat h hl1 hl2 h1 h2 h3 h4
  refine ⟨?_, hy.trans (by norm_num), hz.trans (by norm_num)⟩
  rw [hx, sub_self, abs_zero]
  norm_num

theorem C2_reference_round_trip_witness :
    |((create Config.create).ecef2geod ((create Config.create).geod2ecef ⟨-180, 90, 10000⟩)).x
        - (-180)| ≤ 1e-6 ∧
    |((create Config.create).ecef2geod ((create Config.create).geod2ecef ⟨-180, 90, 10000⟩)).y
        - 90| ≤ 1e-6 ∧
    |((create Config.create).ecef2geod ((create Config.create).geod2ecef ⟨-180, 90, 10000⟩)).z
        - 10000| ≤ 1e-3 :=
  C2_reference_round_trip (-180) 90 10000 (by norm_num) (by norm_num) (by norm_num)
    (by norm_num) (by norm_num) (by norm_num)

/-- C3 (reference scenario): with the reference Config the point `(90, 45, 0)` passed through
`geod2ecef`, `ecef2topo`, `topo2ecef`, `ecef2geod` ends within `0.0005` of `(90, 45, 0)` in each
coordinate, so it prints as `90.000 45.000 0.000`. -/
theorem C3_reference_scenario :
    |((create Config.create).pipeline (Point3.create 90 45 0)).x - 90| < 0.0005 ∧
    |((create Config.create).pipeline (Point3.create 90 45 0)).y - 45| < 0.0005 ∧
    |((create Config.create).pipeline (Point3.create 90 45 0)).z| < 0.0005 := by
  have hinv := topo2ecef_ecef2topo_of_unit (create Config.create)
    (create_sin_cos_lon0 Config.create) (create_sin_cos_lat0 Config.create)
    ((create Config.create).geod2ecef ⟨90, 45, 0⟩)
  obtain ⟨hx, hy, hz⟩ := reference_roundtrip 90 45 0 (by norm_num) (by norm_num) (by norm_num)
    (by norm_num) (by norm_num) (by norm_num)
  unfold pipeline Point3.create
  rw [hinv]
  refine ⟨?_, lt_of_le_of_lt hy (by norm_num), ?_⟩
  · rw [hx, sub_self, abs_zero]
    norm_num
  · rw [sub_zero] at hz
    exact lt_of_le_of_lt hz (by norm_num)

/-! ## Determinism, inverse and rigidity of the topocentric pair -/

/-- C12 (deterministic derivation): two Configs with equal origin longitude, latitude, height
and scale factor give Georef values that agree on every field. -/
theorem C12_create_deterministic (c1 c2 : Config) (hx : c1.origin.x = c2.origin.x)
    (hy : c1.origin.y = c2.origin.y) (hz : c1.origin.z = c2.origin.z)
    (hs : c1.scale_factor = c2.scale_factor) :
    (create c1).origin = (create c2).origin ∧
    (create c1).sin_lon0 = (create c2).sin_lon0 ∧
    (create c1).cos_lon0 = (create c2).cos_lon0 ∧
    (create c1).sin_lat0 = (create c2).sin_lat0 ∧
    (create c1).cos_lat0 = (create c2).cos_lat0 ∧
    (create c1).scale_factor = (create c2).scale_factor ∧
    (create c1).major_radius = (create c2).major_radius ∧
    (create c1).minor_radius = (create c2).minor_radius ∧
    (create c1).polar_radius = (create c2).polar_radius ∧
    (create c1).normal_radius = (create c2).normal_radius ∧
    (create c1).flattening = (create c2).flattening ∧
    (create c1).eccentricity1 = (create c2).eccentricity1 ∧
    (create c1).eccentricity2 = (create c2).eccentricity2 := by
  have hc : c1 = c2 := by
    obtain ⟨⟨x1, y1, z1⟩, s1⟩ := c1
    obtain ⟨⟨x2, y2, z2⟩, s2⟩ := c2
    simp only at hx hy hz hs
    subst hx hy hz hs
    rfl
  subst hc
  exact ⟨rfl, rfl, rfl, rfl, rfl, rfl, rfl, rfl, rfl, rfl, rfl, rfl, rfl⟩

theorem C12_create_deterministic_witness :
    (create ⟨⟨1, 2, 3⟩, 1 / 2⟩).origin = (create ⟨Point3.create 1 2 3, 1 / 2⟩).origin ∧
    (create ⟨⟨1, 2, 3⟩, 1 / 2⟩).sin_lon0 = (create ⟨Point3.create 1 2 3, 1 / 2⟩).sin_lon0 ∧
    (create ⟨⟨1, 2, 3⟩, 1 / 2⟩).cos_lon0 = (create ⟨Point3.create 1 2 3, 1 / 2⟩).cos_lon0 ∧
    (create ⟨⟨1, 2, 3⟩, 1 / 2⟩).sin_lat0 = (create ⟨Point3.create 1 2 3, 1 / 2⟩).sin_lat0 ∧
    (create ⟨⟨1, 2, 3⟩, 1 / 2⟩).cos_lat0 = (create ⟨Point3.create 1 2 3, 1 / 2⟩).cos_lat0 ∧
    (create ⟨⟨1, 2, 3⟩, 1 / 2⟩).scale_factor
      = (create ⟨Point3.create 1 2 3, 1 / 2⟩).scale_factor ∧
    (create ⟨⟨1, 2, 3⟩, 1 / 2⟩).major_radius
      = (create ⟨Point3.create 1 2 3, 1 / 2⟩).major_radius ∧
    (create ⟨⟨1, 2, 3⟩, 1 / 2⟩).minor_radius
      = (create ⟨Point3.create 1 2 3, 1 / 2⟩).minor_radius ∧
    (create ⟨⟨1, 2, 3⟩, 1 / 2⟩).polar_radius
      = (create ⟨Point3.create 1 2 3, 1 / 2⟩).polar_radius ∧
    (create ⟨⟨1, 2, 3⟩, 1 / 2⟩).normal_radius
      = (create ⟨Point3.create 1 2 3, 1 / 2⟩).normal_radius ∧
    (create ⟨⟨1, 2, 3⟩, 1 / 2⟩).flattening
      = (create ⟨Point3.create 1 2 3, 1 / 2⟩).flattening ∧
    (create ⟨⟨1, 2, 3⟩, 1 / 2⟩).eccentricity1
      = (create ⟨Point3.create 1 2 3, 1 / 2⟩).eccentricity1 ∧
    (create ⟨⟨1, 2, 3⟩, 1 / 2⟩).eccentricity2
      = (create ⟨Point3.create 1 2 3, 1 / 2⟩).eccentricity2 :=
  C12_create_deterministic ⟨⟨1, 2, 3⟩, 1 / 2⟩ ⟨Point3.create 1 2 3, 1 / 2⟩ rfl rfl rfl rfl

/-- The composite of the six steps of `topo2ecef`, coordinate by coordinate. -/
theorem topo2ecef_coords (g : Georef) (q : Point3 ℝ) :
    g.topo2ecef q =
      ⟨g.cos_lon0 * (g.cos_lat0 * (q.z + (g.normal_radius + g.origin.z)) - g.sin_lat0 * q.y)
          - g.sin_lon0 * q.x,
        g.sin_lon0 * (g.cos_lat0 * (q.z + (g.normal_radius + g.origin.z)) - g.sin_lat0 * q.y)
          + g.cos_lon0 * q.x,
        g.sin_lat0 * (q.z + (g.normal_radius + g.origin.z)) + g.cos_lat0 * q.y
          - g.eccentricity1 * g.normal_radius * g.sin_lat0⟩ := by
  apply Point3.eq_of_coords
  all_goals simp only [topo2ecef, Point3.rotate, Point3.swap, Point3.get, Point3.set]
  all_goals ring

/-- For any parameter record whose cached sines and cosines lie on the unit circle,
`ecef2topo` undoes `topo2ecef`. -/
theorem ecef2topo_topo2ecef_of_unit (g : Georef)
    (hlon : g.sin_lon0 ^ 2 + g.cos_lon0 ^ 2 = 1) (hlat : g.sin_lat0 ^ 2 + g.cos_lat0 ^ 2 = 1)
    (q : Point3 ℝ) : g.ecef2topo (g.topo2ecef q) = q := by
  rw [ecef2topo_coords, topo2ecef_coords]
  obtain ⟨X, Y, Z⟩ := q
  apply Point3.eq_of_coords
  · show _ = X
    linear_combination X * hlon
  · show _ = Y
    linear_combination Y * hlat
      - g.sin_lat0 * (g.cos_lat0 * (Z + (g.normal_radius + g.origin.z)) - g.sin_lat0 * Y) * hlon
  · show _ = Z
    linear_combination (Z + (g.normal_radius + g.origin.z)) * hlat
      + g.cos_lat0 * (g.cos_lat0 * (Z + (g.normal_radius + g.origin.z)) - g.sin_lat0 * Y) * hlon

/-- C14 (right inverse): for a Config with positive scale and `g = Georef::create(config)`,
`ecef2topo` applied after `topo2ecef` returns the point it started from, and both operations
are bijections on points. -/
theorem C14_ecef2topo_topo2ecef (config : Config) (_hs : 0 < config.scale_factor) :
    (∀ q : Point3 ℝ, (create config).ecef2topo ((create config).topo2ecef q) = q) ∧
    Function.Bijective (create config).ecef2topo ∧
    Function.Bijective (create config).topo2ecef := by
  have h1 : ∀ q : Point3 ℝ, (create config).ecef2topo ((create config).topo2ecef q) = q :=
    ecef2topo_topo2ecef_of_unit (create config) (create_sin_cos_lon0 config)
      (create_sin_cos_lat0 config)
  have h2 : ∀ p : Point3 ℝ, (create config).topo2ecef ((create config).ecef2topo p) = p :=
    topo2ecef_ecef2topo_of_unit (create config) (create_sin_cos_lon0 config)
      (create_sin_cos_lat0 config)
  refine ⟨h1, ⟨?_, ?_⟩, ⟨?_, ?_⟩⟩
  · exact Function.LeftInverse.injective h2
  · exact Function.RightInverse.surjective h1
  · exact Function.LeftInverse.injective h1
  · exact Function.RightInverse.surjective h2

theorem C14_ecef2topo_topo2ecef_witness :
    0 < Config.create.scale_factor ∧
    ((∀ q : Point3 ℝ,
        (create Config.create).ecef2topo ((create Config.create).topo2ecef q) = q) ∧
      Function.Bijective (create Config.create).ecef2topo ∧
      Function.Bijective (create Config.create).topo2ecef) :=
  ⟨reference_scale_pos, C14_ecef2topo_topo2ecef Config.create reference_scale_pos⟩

/-- Squared distances are kept by `ecef2topo` and by `topo2ecef` for any parameter record
whose cached sines and cosines lie on the unit circle. -/
theorem ecef2topo_distSq_of_unit (g : Georef)
    (hlon : g.sin_lon0 ^ 2 + g.cos_lon0 ^ 2 = 1) (hlat : g.sin_lat0 ^ 2 + g.cos_lat0 ^ 2 = 1)
    (p q : Point3 ℝ) :
    ((g.ecef2topo p).x - (g.ecef2topo q).x) ^ 2 + ((g.ecef2topo p).y - (g.ecef2topo q).y) ^ 2
        + ((g.ecef2topo p).z - (g.ecef2topo q).z) ^ 2
      = (p.x - q.x) ^ 2 + (p.y - q.y) ^ 2 + (p.z - q.z) ^ 2 := by
  rw [ecef2topo_coords, ecef2topo_coords]
  simp only
  linear_combination
    ((g.cos_lon0 * (p.x - q.x) + g.sin_lon0 * (p.y - q.y)) ^ 2 + (p.z - q.z) ^ 2) * hlat
    + ((p.x - q.x) ^ 2 + (p.y - q.y) ^ 2) * hlon

theorem topo2ecef_distSq_of_unit (g : Georef)
    (hlon : g.sin_lon0 ^ 2 + g.cos_lon0 ^ 2 = 1) (hlat : g.sin_lat0 ^ 2 + g.cos_lat0 ^ 2 = 1)
    (p q : Point3 ℝ) :
    ((g.topo2ecef p).x - (g.topo2ecef q).x) ^ 2 + ((g.topo2ecef p).y - (g.topo2ecef q).y) ^ 2
        + ((g.topo2ecef p).z - (g.topo2ecef q).z) ^ 2
      = (p.x - q.x) ^ 2 + (p.y - q.y) ^ 2 + (p.z - q.z) ^ 2 := by
  rw [topo2ecef_coords, topo2ecef_coords]
  simp only
  linear_combination
    ((g.cos_lat0 * (p.z - q.z) - g.sin_lat0 * (p.y - q.y)) ^ 2 + (p.x - q.x) ^ 2) * hlon
    + ((p.z - q.z) ^ 2 + (p.y - q.y) ^ 2) * hlat

/-- C20 (rigid motion): for `g = Georef::create(config)` and any two points `p`, `q`, the
squared Euclidean distance between `ecef2topo p` and `ecef2topo q` equals the one between `p`
and `q`, and likewise for `topo2ecef`. -/
theorem C20_rigid_motion (config : Config) (p q : Point3 ℝ) :
    (((create config).ecef2topo p).x - ((create config).ecef2topo q).x) ^ 2
        + (((create config).ecef2topo p).y - ((create config).ecef2topo q).y) ^ 2
        + (((create config).ecef2topo p).z - ((create config).ecef2topo q).z) ^ 2
      = (p.x - q.x) ^ 2 + (p.y - q.y) ^ 2 + (p.z - q.z) ^ 2 ∧
    (((create config).topo2ecef p).x - ((create config).topo2ecef q).x) ^ 2
        + (((create config).topo2ecef p).y - ((create config).topo2ecef q).y) ^ 2
        + (((create config).topo2ecef p).z - ((create config).topo2ecef q).z) ^ 2
      = (p.x - q.x) ^ 2 + (p.y - q.y) ^ 2 + (p.z - q.z) ^ 2 :=
  ⟨ecef2topo_distSq_of_unit (create config) (create_sin_cos_lon0 config)
      (create_sin_cos_lat0 config) p q,
    topo2ecef_distSq_of_unit (create config) (create_sin_cos_lon0 config)
      (create_sin_cos_lat0 config) p q⟩

/-! ## Exact facts about the geodetic pair -/

/-- C13 (longitude recovered exactly): for a Georef with positive scale factor and a point
`(lon, lat, h)` whose scaled longitude `lon0 + (lon - lon0) * s` lies in `(-180, 180]` and
whose horizontal radius `(N + h) * cos B` is positive, the longitude returned by `ecef2geod`
after `geod2ecef` is `lon`. -/
theorem C13_longitude_round_trip (g : Georef) (hs : 0 < g.scale_factor) (lon lat h : ℝ)
    (hL1 : -180 < g.origin.x + (lon - g.origin.x) * g.scale_factor)
    (hL2 : g.origin.x + (lon - g.origin.x) * g.scale_factor ≤ 180)
    (hH : 0 < (g.polar_radius / Real.sqrt (1 + g.eccentricity2
            * Real.cos ((g.origin.y + (lat - g.origin.y) * g.scale_factor) * radian)
            * Real.cos ((g.origin.y + (lat - g.origin.y) * g.scale_factor) * radian)) + h)
          * Real.cos ((g.origin.y + (lat - g.origin.y) * g.scale_factor) * radian)) :
    (g.ecef2geod (g.geod2ecef ⟨lon, lat, h⟩)).x = lon := by
  have hpi := Real.pi_pos
  have hr1 : -Real.pi < (g.origin.x + (lon - g.origin.x) * g.scale_factor) * radian := by
    unfold radian
    nlinarith
  have hr2 : (g.origin.x + (lon - g.origin.x) * g.scale_factor) * radian ≤ Real.pi := by
    unfold radian
    nlinarith
  rw [geod2ecef_eq, ecef2geod_eq]
  show g.origin.x + (atan2 _ _ * degree - g.origin.x) / g.scale_factor = lon
  unfold normal
  rw [atan2_mul_sin_cos hH hr1 hr2, mul_radian_mul_degree]
  field_simp

theorem C13_longitude_round_trip_witness :
    ((create Config.create).ecef2geod ((create Config.create).geod2ecef ⟨90, 0, 0⟩)).x = 90 := by
  have hH := lt_of_le_of_lt
    (mul_nonneg (create_eccentricity1_pos Config.create).le
      (create_major_radius_pos Config.create reference_scale_pos).le)
    (reference_far_from_axis 90 0 0 (by norm_num) (by norm_num) (by norm_num) (by norm_num))
  have hpos : 0 < ((create Config.create).polar_radius / Real.sqrt (1
        + (create Config.create).eccentricity2
          * Real.cos (((create Config.create).origin.y
              + (0 - (create Config.create).origin.y) * (create Config.create).scale_factor)
              * radian)
          * Real.cos (((create Config.create).origin.y
              + (0 - (create Config.create).origin.y) * (create Config.create).scale_factor)
              * radian)) + 0)
        * Real.cos (((create Config.create).origin.y
            + (0 - (create Config.create).origin.y) * (create Config.create).scale_factor)
            * radian) := by
    have h0 : ((create Config.create).origin.y
        + (0 - (create Config.create).origin.y) * (create Config.create).scale_factor) * radian
        = 0 := by
      rw [reference_origin]
      simp
    rw [h0, Real.cos_zero, add_zero, mul_one, create_normal_equator]
    exact create_major_radius_pos Config.create reference_scale_pos
  exact C13_longitude_round_trip (create Config.create) reference_scale_pos 90 0 0
    (by rw [reference_origin, reference_scale]; norm_num)
    (by rw [reference_origin, reference_scale]; norm_num) hpos

/-- C17 (both height formulas are exact at the true latitude): for a Georef with positive
scale factor, a point whose scaled latitude `B` has `cos B > 0` and whose height `h` has
`N + h > 0`, the `geod2ecef` image `(x', y', z')` has `hypot (x', y') / cos B - N = h` and,
when `sin B ≠ 0`, `z' / sin B - N * (1 - eccentricity1) = h`. -/
theorem C17_height_formulas_exact (g : Georef) (_hs : 0 < g.scale_factor) (p : Point3 ℝ)
    (hc : 0 < Real.cos ((g.origin.y + (p.y - g.origin.y) * g.scale_factor) * radian))
    (hN : 0 < g.normal (Real.cos ((g.origin.y + (p.y - g.origin.y) * g.scale_factor) * radian))
      + p.z) :
    hypot (g.geod2ecef p).x (g.geod2ecef p).y
        / Real.cos ((g.origin.y + (p.y - g.origin.y) * g.scale_factor) * radian)
        - g.normal (Real.cos ((g.origin.y + (p.y - g.origin.y) * g.scale_factor) * radian))
      = p.z ∧
    (Real.sin ((g.origin.y + (p.y - g.origin.y) * g.scale_factor) * radian) ≠ 0 →
      (g.geod2ecef p).z
          / Real.sin ((g.origin.y + (p.y - g.origin.y) * g.scale_factor) * radian)
          - g.normal (Real.cos ((g.origin.y + (p.y - g.origin.y) * g.scale_factor) * radian))
            * (1 - g.eccentricity1)
        = p.z) := by
  constructor
  · rw [geod2ecef_hypot]
    change |(g.normal _ + p.z) * _| / _ - _ = _
    rw [abs_of_pos (mul_pos hN hc)]
    field_simp
  · intro hsin
    rw [geod2ecef_eq]
    simp only
    field_simp

/-- With the reference Config a latitude in `[-90, 90]` has a positive scaled cosine and a
height of at least `-1e4` keeps `N + h` positive. -/
theorem reference_cos_normal_pos (lat h : ℝ) (h1 : -90 ≤ lat) (h2 : lat ≤ 90)
    (h3 : -10000 ≤ h) :
    0 < Real.cos (((create Config.create).origin.y
        + (lat - (create Config.create).origin.y) * (create Config.create).scale_factor)
        * radian) ∧
    0 < (create Config.create).normal (Real.cos (((create Config.create).origin.y
        + (lat - (create Config.create).origin.y) * (create Config.create).scale_factor)
        * radian)) + h := by
  rw [reference_latitude]
  have hc := reference_cos_lat_ge lat h1 h2
  have hN := create_major_le_normal Config.create reference_scale_pos
    (Real.cos (lat * (Real.pi / 240))) (cos_sq_le_one' _)
  rw [reference_major_radius] at hN
  change _ ≤ (create Config.create).normal _ at hN
  constructor <;> linarith

theorem C17_height_formulas_exact_witness :
    hypot ((create Config.create).geod2ecef ⟨0, 90, 100⟩).x
          ((create Config.create).geod2ecef ⟨0, 90, 100⟩).y
        / Real.cos (((create Config.create).origin.y
            + ((Point3.mk (0 : ℝ) 90 100).y - (create Config.create).origin.y)
              * (create Config.create).scale_factor) * radian)
        - (create Config.create).normal (Real.cos (((create Config.create).origin.y
            + ((Point3.mk (0 : ℝ) 90 100).y - (create Config.create).origin.y)
              * (create Config.create).scale_factor) * radian))
      = (Point3.mk (0 : ℝ) 90 100).z ∧
    (Real.sin (((create Config.create).origin.y
        + ((Point3.mk (0 : ℝ) 90 100).y - (create Config.create).origin.y)
          * (create Config.create).scale_factor) * radian) ≠ 0 →
      ((create Config.create).geod2ecef ⟨0, 90, 100⟩).z
          / Real.sin (((create Config.create).origin.y
              + ((Point3.mk (0 : ℝ) 90 100).y - (create Config.create).origin.y)
                * (create Config.create).scale_factor) * radian)
          - (create Config.create).normal (Real.cos (((create Config.create).origin.y
              + ((Point3.mk (0 : ℝ) 90 100).y - (create Config.create).origin.y)
                * (create Config.create).scale_factor) * radian))
            * (1 - (create Config.create).eccentricity1)
        = (Point3.mk (0 : ℝ) 90 100).z) :=
  C17_height_formulas_exact (create Config.create) reference_scale_pos ⟨0, 90, 100⟩
    (reference_cos_normal_pos 90 100 (by norm_num) (by norm_num) (by norm_num)).1
    (reference_cos_normal_pos 90 100 (by norm_num) (by norm_num) (by norm_num)).2

/-- The square root inside the normal radius, for a latitude of cosine `c` and sine `s`. -/
theorem sqrt_cos_sq_add_pos (k c s : ℝ) (hk : 0 < k) (hcs : c ^ 2 + s ^ 2 = 1) :
    0 < Real.sqrt (c ^ 2 + k ^ 2 * s ^ 2) := by
  apply Real.sqrt_pos.2
  have hk2 : 0 < k ^ 2 := by positivity
  rcases eq_or_ne s 0 with h0 | h0
  · have : c ^ 2 = 1 := by rw [h0] at hcs; linarith
    rw [h0]
    nlinarith
  · have : 0 < s ^ 2 := by positivity
    nlinarith [sq_nonneg c]

/-- C19 (height 0 lies on the ellipsoid): for a Config with positive scale, the `geod2ecef`
image `(x', y', z')` of a point of height `0` satisfies
`(x'^2 + y'^2) / major_radius^2 + z'^2 / minor_radius^2 = 1`. -/
theorem C19_height_zero_on_ellipsoid (config : Config) (hs : 0 < config.scale_factor)
    (lon lat : ℝ) :
    (((create config).geod2ecef ⟨lon, lat, 0⟩).x ^ 2
        + ((create config).geod2ecef ⟨lon, lat, 0⟩).y ^ 2) / (create config).major_radius ^ 2
      + ((create config).geod2ecef ⟨lon, lat, 0⟩).z ^ 2 / (create config).minor_radius ^ 2
      = 1 := by
  have hk : (0 : ℝ) < 1 - 1 / 298.257223563 := by norm_num
  have ha := create_major_radius_pos config hs
  rw [geod2ecef_eq]
  simp only
  have hcs := Real.cos_sq_add_sin_sq
    (((create config).origin.y + (lat - (create config).origin.y)
      * (create config).scale_factor) * radian)
  have hL := Real.sin_sq_add_cos_sq
    (((create config).origin.x + (lon - (create config).origin.x)
      * (create config).scale_factor) * radian)
  rw [create_normal_eq config _ _ hcs, create_eccentricity1_eq]
  have hb : (create config).minor_radius
      = (create config).major_radius * (1 - 1 / 298.257223563) := rfl
  rw [hb]
  have hW := sqrt_cos_sq_add_pos _ _ _ hk hcs
  have hW2 := Real.sq_sqrt (le_of_lt (Real.sqrt_pos.1 hW))
  generalize Real.cos (((create config).origin.y + (lat - (create config).origin.y)
      * (create config).scale_factor) * radian) = c at *
  generalize Real.sin (((create config).origin.y + (lat - (create config).origin.y)
      * (create config).scale_factor) * radian) = s at *
  generalize Real.cos (((create config).origin.x + (lon - (create config).origin.x)
      * (create config).scale_factor) * radian) = cl at *
  generalize Real.sin (((create config).origin.x + (lon - (create config).origin.x)
      * (create config).scale_factor) * radian) = sl at *
  generalize (1 - 1 / 298.257223563 : ℝ) = k at *
  generalize Real.sqrt (c ^ 2 + k ^ 2 * s ^ 2) = W at *
  generalize (create config).major_radius = a at *
  field_simp
  linear_combination (a ^ 4 * k ^ 2 * W ^ 2 * c ^ 2) * hL - (a ^ 4 * k ^ 2 * W ^ 2) * hW2

theorem C19_height_zero_on_ellipsoid_witness :
    0 < Config.create.scale_factor ∧
    (((create Config.create).geod2ecef ⟨90, 45, 0⟩).x ^ 2
        + ((create Config.create).geod2ecef ⟨90, 45, 0⟩).y ^ 2)
          / (create Config.create).major_radius ^ 2
      + ((create Config.create).geod2ecef ⟨90, 45, 0⟩).z ^ 2
          / (create Config.create).minor_radius ^ 2
      = 1 :=
  ⟨reference_scale_pos, C19_height_zero_on_ellipsoid Config.create reference_scale_pos 90 45⟩

/-- The refinement expression at the reduced latitude of the true latitude is the true
tangent. -/
theorem refine_fixed_point (a k c s W h : ℝ) (hk : 0 < k) (hc : 0 < c) (hW : 0 < W)
    (hW2 : W ^ 2 = c ^ 2 + k ^ 2 * s ^ 2)
    (hD : (a / W + h) * c - (1 - k ^ 2) * a * Real.cos (Real.arctan (k * (s / c))) ^ 3 ≠ 0) :
    ((h + a / W * k ^ 2) * s + (1 - k ^ 2) * a / k * Real.sin (Real.arctan (k * (s / c))) ^ 3) /
        ((a / W + h) * c - (1 - k ^ 2) * a * Real.cos (Real.arctan (k * (s / c))) ^ 3)
      = s / c := by
  have hid := refine_error_identity a k c s W h (Real.arctan (k * (s / c))) hk hc hW hD
  obtain ⟨hcg, hsg⟩ := cos_arctan_ratio (k := k) hc hW hW2
  have hzero : Real.sin (Real.arctan (k * (s / c))) ^ 3 * (c / W)
      + Real.cos (Real.arctan (k * (s / c))) ^ 3 * (k * s / W) - k * s / W * (c / W) = 0 := by
    rw [hcg, hsg]
    have hrew : (k * s / W) ^ 3 * (c / W) + (c / W) ^ 3 * (k * s / W) - k * s / W * (c / W)
        = k * s * c / W ^ 4 * (c ^ 2 + k ^ 2 * s ^ 2 - W ^ 2) := by
      field_simp
      ring
    rw [hrew, hW2, sub_self, mul_zero]
  rw [hzero, mul_zero, zero_div] at hid
  linarith

/-- C18 (the true latitude is a fixed point of the refinement): for a Config with positive
scale, a point whose scaled latitude `B` has `cos B > 0` and whose height `h` has
`N + h > eccentricity1 * N`, with `(x', y', z')` the `geod2ecef` image and
`beta = atan ((1 - flattening) * tan B)`,
`(z' + eccentricity2 * minor_radius * sin beta ^ 3)
  / (hypot (x', y') - eccentricity1 * major_radius * cos beta ^ 3) = tan B`. -/
theorem C18_true_latitude_fixed_point (config : Config) (hs : 0 < config.scale_factor)
    (p : Point3 ℝ)
    (hc : 0 < Real.cos (((create config).origin.y
      + (p.y - (create config).origin.y) * (create config).scale_factor) * radian))
    (hh : (create config).eccentricity1
        * (create config).normal (Real.cos (((create config).origin.y
            + (p.y - (create config).origin.y) * (create config).scale_factor) * radian))
      < (create config).normal (Real.cos (((create config).origin.y
            + (p.y - (create config).origin.y) * (create config).scale_factor) * radian))
        + p.z) :
    (((create config).geod2ecef p).z
        + (create config).eccentricity2 * (create config).minor_radius
          * Real.sin (Real.arctan ((1 - (create config).flattening)
              * Real.tan (((create config).origin.y
                + (p.y - (create config).origin.y) * (create config).scale_factor) * radian)))
            ^ 3) /
      (hypot ((create config).geod2ecef p).x ((create config).geod2ecef p).y
        - (create config).eccentricity1 * (create config).major_radius
          * Real.cos (Real.arctan ((1 - (create config).flattening)
              * Real.tan (((create config).origin.y
                + (p.y - (create config).origin.y) * (create config).scale_factor) * radian)))
            ^ 3)
      = Real.tan (((create config).origin.y
          + (p.y - (create config).origin.y) * (create config).scale_factor) * radian) := by
  have hk : (0 : ℝ) < 1 - 1 / 298.257223563 := by norm_num
  have hk1 : (1 - 1 / 298.257223563 : ℝ) < 1 := by norm_num
  have ha := create_major_radius_pos config hs
  have hcs := Real.cos_sq_add_sin_sq
    (((create config).origin.y + (p.y - (create config).origin.y)
      * (create config).scale_factor) * radian)
  have hNeq := create_normal_eq config _ _ hcs
  have hNlo := create_major_le_normal config hs _ (cos_sq_le_one' (((create config).origin.y
      + (p.y - (create config).origin.y) * (create config).scale_factor) * radian))
  change _ ≤ (create config).normal _ at hNlo
  have he1 := create_eccentricity1_eq config
  have he1a := create_e1_major config
  have he2b := create_e2_minor config
  have he1pos := create_eccentricity1_pos config
  have hf : 1 - (create config).flattening = 1 - 1 / 298.257223563 := rfl
  have hW := sqrt_cos_sq_add_pos _ _ _ hk hcs
  have hW2 := Real.sq_sqrt (le_of_lt (Real.sqrt_pos.1 hW))
  rw [geod2ecef_hypot]
  change (((create config).geod2ecef p).z + _) / (|((create config).normal _ + p.z) * _| - _) = _
  rw [geod2ecef_eq, Real.tan_eq_sin_div_cos, hf, he2b, he1a]
  simp only
  generalize Real.cos (((create config).origin.y + (p.y - (create config).origin.y)
      * (create config).scale_factor) * radian) = c at *
  generalize Real.sin (((create config).origin.y + (p.y - (create config).origin.y)
      * (create config).scale_factor) * radian) = s at *
  generalize (1 - 1 / 298.257223563 : ℝ) = k at *
  generalize Real.sqrt (c ^ 2 + k ^ 2 * s ^ 2) = W at *
  generalize (create config).major_radius = a at *
  generalize (create config).eccentricity1 = e1 at *
  generalize (create config).normal c = N at *
  have hNpos : 0 < N := lt_of_lt_of_le ha hNlo
  have hNh : 0 < N + p.z := by
    have := mul_pos he1pos hNpos
    linarith
  rw [abs_of_pos (mul_pos hNh hc)]
  subst hNeq he1
  have hW1 : W ^ 2 ≤ 1 := by
    rw [hW2]
    have : 0 ≤ s ^ 2 * (1 - k ^ 2) := mul_nonneg (sq_nonneg s) (by nlinarith)
    nlinarith
  obtain ⟨hcg, -⟩ := cos_arctan_ratio (k := k) hc hW hW2
  have hD : (a / W + p.z) * c
      - (1 - k ^ 2) * a * Real.cos (Real.arctan (k * (s / c))) ^ 3 ≠ 0 := by
    rw [hcg]
    have hcW : (c / W) ^ 2 ≤ 1 := by
      rw [div_pow, div_le_one (by positivity), hW2]
      nlinarith [sq_nonneg s, sq_nonneg k]
    have hcW0 : 0 < c / W := div_pos hc hW
    have h3 : (1 - k ^ 2) * a * (c / W) ^ 3 ≤ (1 - k ^ 2) * (a / W) * c := by
      have hkk : 0 ≤ (1 - k ^ 2) * (a / W) * c := by
        apply mul_nonneg (mul_nonneg (by nlinarith) (div_pos ha hW).le) hc.le
      have : (1 - k ^ 2) * a * (c / W) ^ 3 = (1 - k ^ 2) * (a / W) * c * (c / W) ^ 2 := by
        field_simp
        ring
      rw [this]
      exact mul_le_of_le_one_right hkk hcW
    have h4 : (1 - k ^ 2) * (a / W) * c < (a / W + p.z) * c := by
      have := mul_lt_mul_of_pos_right hh hc
      linarith
    linarith
  have key := refine_fixed_point a k c s W p.z hk hc hW hW2 hD
  refine Eq.trans ?_ key
  congr 1
  ring

theorem reference_fixed_point_hyp (lat h : ℝ) (h3 : -10000 ≤ h) :
    (create Config.create).eccentricity1
        * (create Config.create).normal (Real.cos (((create Config.create).origin.y
            + (lat - (create Config.create).origin.y) * (create Config.create).scale_factor)
            * radian))
      < (create Config.create).normal (Real.cos (((create Config.create).origin.y
            + (lat - (create Config.create).origin.y) * (create Config.create).scale_factor)
            * radian)) + h := by
  rw [reference_latitude]
  have hN := create_major_le_normal Config.create reference_scale_pos
    (Real.cos (lat * (Real.pi / 240))) (cos_sq_le_one' _)
  rw [reference_major_radius] at hN
  change _ ≤ (create Config.create).normal _ at hN
  have he1 := create_eccentricity1_lt Config.create
  have hpos : 0 < (create Config.create).normal (Real.cos (lat * (Real.pi / 240))) := by
    linarith
  have := mul_lt_mul_of_pos_right he1 hpos
  linarith

theorem C18_true_latitude_fixed_point_witness :
    (((create Config.create).geod2ecef ⟨0, 45, 0⟩).z
        + (create Config.create).eccentricity2 * (create Config.create).minor_radius
          * Real.sin (Real.arctan ((1 - (create Config.create).flattening)
              * Real.tan (((create Config.create).origin.y
                + ((Point3.mk (0 : ℝ) 45 0).y - (create Config.create).origin.y)
                  * (create Config.create).scale_factor) * radian)))
            ^ 3) /
      (hypot ((create Config.create).geod2ecef ⟨0, 45, 0⟩).x
          ((create Config.create).geod2ecef ⟨0, 45, 0⟩).y
        - (create Config.create).eccentricity1 * (create Config.create).major_radius
          * Real.cos (Real.arctan ((1 - (create Config.create).flattening)
              * Real.tan (((create Config.create).origin.y
                + ((Point3.mk (0 : ℝ) 45 0).y - (create Config.create).origin.y)
                  * (create Config.create).scale_factor) * radian)))
            ^ 3)
      = Real.tan (((create Config.create).origin.y
          + ((Point3.mk (0 : ℝ) 45 0).y - (create Config.create).origin.y)
            * (create Config.create).scale_factor) * radian) :=
  C18_true_latitude_fixed_point Config.create reference_scale_pos ⟨0, 45, 0⟩
    (reference_cos_normal_pos 45 0 (by norm_num) (by norm_num) (by norm_num)).1
    (reference_fixed_point_hyp 45 0 (by norm_num))

/-- C15 (equatorial plane): for a Config with positive scale and an ECEF point `(x, y, 0)`
with `hypot (x, y) > eccentricity1 * major_radius`, `ecef2geod` keeps the tangent at `0`
through both refinement passes, returns the latitude `lat0 + (0 - lat0) / scale_factor`,
takes the `|tangent| ≤ 1` height branch with every divisor non-zero, and returns the height
`hypot (x, y) - major_radius`. -/
theorem C15_equatorial_plane (config : Config) (hs : 0 < config.scale_factor) (x y : ℝ)
    (hfar : (create config).eccentricity1 * (create config).major_radius < hypot x y) :
    (create config).tangent0 (hypot x y) 0 = 0 ∧
    (create config).refineTangent (hypot x y) 0
      (Real.arctan ((create config).tangent0 (hypot x y) 0 * (1 - (create config).flattening)))
      = 0 ∧
    (create config).tangent (hypot x y) 0 = 0 ∧
    ((create config).ecef2geod ⟨x, y, 0⟩).y
      = (create config).origin.y + (0 - (create config).origin.y) / (create config).scale_factor ∧
    |(create config).tangent (hypot x y) 0| ≤ 1 ∧
    (∀ d ∈ (create config).ecef2geodDivisors ⟨x, y, 0⟩, d ≠ 0) ∧
    ((create config).ecef2geod ⟨x, y, 0⟩).z = hypot x y - (create config).major_radius := by
  have ht0 : (create config).tangent0 (hypot x y) 0 = 0 := by
    unfold tangent0
    rw [zero_div, zero_mul]
  have hstep : (create config).refineTangent (hypot x y) 0 (Real.arctan (0 * (1 - (create config).flattening))) = 0 := by
    unfold refineTangent
    rw [zero_mul, Real.arctan_zero, Real.sin_zero]
    simp
  have ht : (create config).tangent (hypot x y) 0 = 0 := by
    unfold tangent
    rw [ht0, hstep, hstep]
  have hea : 0 ≤ (create config).eccentricity1 * (create config).major_radius :=
    mul_nonneg (create_eccentricity1_pos config).le (create_major_radius_pos config hs).le
  have hne : (0 : ℝ) ≠ Real.pi / 2 := by
    have := Real.pi_pos
    linarith
  refine ⟨ht0, by rw [ht0]; exact hstep, ht, ?_, by rw [ht]; simp, ?_, ?_⟩
  · rw [ecef2geod_eq]
    simp only [ht, Real.arctan_zero, zero_mul]
  · exact ecef2geodDivisors_ne_zero (create config) ⟨x, y, 0⟩
      (create_eccentricity2_pos config).le hs.ne' hea hfar
  · rw [ecef2geod_eq]
    simp only [ht, Real.arctan_zero, abs_zero, zero_le_one, if_true, if_neg hne, Real.cos_zero,
      div_one]
    unfold normal
    rw [create_normal_equator]

theorem C15_equatorial_plane_witness :
    (create Config.create).tangent0 (hypot 9000000 0) 0 = 0 ∧
    (create Config.create).refineTangent (hypot 9000000 0) 0
      (Real.arctan ((create Config.create).tangent0 (hypot 9000000 0) 0
        * (1 - (create Config.create).flattening)))
      = 0 ∧
    (create Config.create).tangent (hypot 9000000 0) 0 = 0 ∧
    ((create Config.create).ecef2geod ⟨9000000, 0, 0⟩).y
      = (create Config.create).origin.y
        + (0 - (create Config.create).origin.y) / (create Config.create).scale_factor ∧
    |(create Config.create).tangent (hypot 9000000 0) 0| ≤ 1 ∧
    (∀ d ∈ (create Config.create).ecef2geodDivisors ⟨9000000, 0, 0⟩, d ≠ 0) ∧
    ((create Config.create).ecef2geod ⟨9000000, 0, 0⟩).z
      = hypot 9000000 0 - (create Config.create).major_radius := by
  have hh : hypot 9000000 0 = 9000000 := by
    unfold hypot
    rw [mul_zero, add_zero]
    exact Real.sqrt_mul_self (by norm_num)
  have he1 := create_eccentricity1_lt Config.create
  have he0 := create_eccentricity1_pos Config.create
  have hfar : (create Config.create).eccentricity1 * (create Config.create).major_radius
      < hypot 9000000 0 := by
    rw [hh, reference_major_radius]
    nlinarith
  exact C15_equatorial_plane Config.create reference_scale_pos 9000000 0 hfar

/-! ## The polar axis -/

/-- On the polar axis (`hplane = 0`) the refinement expression is negative for every latitude
estimate of positive cosine, as soon as `z > eccentricity2 * minor_radius`: the divisor
`hplane - eccentricity1 * major_radius * cos ^ 3` is negative. -/
theorem refineTangent_axis_neg (g : Georef) (he2b : 0 ≤ g.eccentricity2 * g.minor_radius)
    (he1a : 0 < g.eccentricity1 * g.major_radius) (z β : ℝ)
    (hz : g.eccentricity2 * g.minor_radius < z) (hβ : 0 < Real.cos β) :
    g.refineTangent 0 z β < 0 := by
  unfold refineTangent
  have hs3 : -1 ≤ Real.sin β ^ 3 := by
    have h1 := Real.neg_one_le_sin β
    have h2 := Real.sin_le_one β
    nlinarith [sq_nonneg (Real.sin β), sq_nonneg (Real.sin β + 1)]
  have hnum : 0 < z + g.eccentricity2 * g.minor_radius * Real.sin β ^ 3 := by nlinarith
  have hden : 0 - g.eccentricity1 * g.major_radius * Real.cos β ^ 3 < 0 := by
    have := mul_pos he1a (pow_pos hβ 3)
    linarith
  exact div_neg_of_pos_of_neg hnum hden

/-- On the polar axis the final `tangent` of `ecef2geod` is negative whatever the value of
the first estimate `z / hplane * ...` is taken to be. -/
theorem tangent_axis_neg (g : Georef) (he2b : 0 ≤ g.eccentricity2 * g.minor_radius)
    (he1a : 0 < g.eccentricity1 * g.major_radius) (z : ℝ)
    (hz : g.eccentricity2 * g.minor_radius < z) : g.tangent 0 z < 0 := by
  unfold tangent
  exact refineTangent_axis_neg g he2b he1a z _ hz (Real.cos_arctan_pos _)

theorem create_e2_minor_nonneg (config : Config) (hs : 0 < config.scale_factor) :
    0 ≤ (create config).eccentricity2 * (create config).minor_radius := by
  have hk : (0 : ℝ) < 1 - 1 / 298.257223563 := by norm_num
  have ha := create_major_radius_pos config hs
  have hb : (create config).minor_radius
      = (create config).major_radius * (1 - 1 / 298.257223563) := rfl
  rw [hb]
  exact mul_nonneg (create_eccentricity2_pos config).le (mul_pos ha hk).le

theorem create_minor_radius_pos (config : Config) (hs : 0 < config.scale_factor) :
    0 < (create config).minor_radius := by
  have hk : (0 : ℝ) < 1 - 1 / 298.257223563 := by norm_num
  have ha := create_major_radius_pos config hs
  have hb : (create config).minor_radius
      = (create config).major_radius * (1 - 1 / 298.257223563) := rfl
  rw [hb]
  exact mul_pos ha hk

/-- C16 (polar axis) evaluated on the code: with the reference Config the north pole of the
ellipsoid, the ECEF point `(0, 0, minor_radius)`, is not returned with latitude `90 / 0.75`;
`ecef2geod` returns a negative latitude. -/
theorem C16_pole_axis_latitude_negative :
    ((create Config.create).ecef2geod ⟨0, 0, (create Config.create).minor_radius⟩).y < 0 ∧
    (create Config.create).origin.y
      + (90 - (create Config.create).origin.y) / (create Config.create).scale_factor = 120 := by
  have hb := create_minor_radius_pos Config.create reference_scale_pos
  have he2 := create_eccentricity2_lt Config.create
  have he2' := create_eccentricity2_pos Config.create
  have hz : (create Config.create).eccentricity2 * (create Config.create).minor_radius
      < (create Config.create).minor_radius := by nlinarith
  have hT := tangent_axis_neg (create Config.create)
    (create_e2_minor_nonneg Config.create reference_scale_pos)
    (mul_pos (create_eccentricity1_pos Config.create)
      (create_major_radius_pos Config.create reference_scale_pos))
    (create Config.create).minor_radius hz
  have harc : Real.arctan ((create Config.create).tangent 0 (create Config.create).minor_radius)
      < 0 :=
    lt_of_lt_of_eq (Real.arctan_strictMono hT) Real.arctan_zero
  have hh : hypot 0 0 = 0 := by simp [hypot]
  constructor
  · rw [ecef2geod_eq]
    simp only [hh]
    rw [reference_scale, reference_origin]
    have hd := degree_pos
    have := mul_neg_of_neg_of_pos harc hd
    show (0 : ℝ) + (_ * degree - 0) / (3 / 4) < 0
    rw [zero_add, sub_zero]
    exact div_neg_of_neg_of_pos this (by norm_num)
  · rw [reference_scale, reference_origin]
    norm_num

/-- The stored origin of the openmp `Georef::create` is in radians. -/
theorem openmp_create_origin (config : Openmp.Config) :
    (Openmp.create config).origin
      = ⟨config.origin_logitude * radian, config.origin_latitude * radian,
          config.origin_altitude⟩ := rfl

theorem sycl_create_origin (config : Sycl.Config) :
    (Sycl.create config).origin
      = ⟨config.origin_logitude * radian, config.origin_latitude * radian,
          config.origin_altitude⟩ := rfl

/-- The longitude and latitude angles `geod2ecef` works with in the openmp variant: the
scaling is centred on the origin already converted to radians. -/
theorem openmp_geod2ecef_x (config : Openmp.Config) (x y h : ℝ) :
    ((Openmp.create config).geod2ecef ⟨x, y, h⟩).x
      = ((Openmp.create config).normal (Real.cos ((config.origin_latitude * radian
            + (y - config.origin_latitude * radian) * config.scale_factor) * radian)) + h)
        * Real.cos ((config.origin_latitude * radian
            + (y - config.origin_latitude * radian) * config.scale_factor) * radian)
        * Real.cos ((config.origin_logitude * radian
            + (x - config.origin_logitude * radian) * config.scale_factor) * radian) := rfl

/-! ## The origin of the openmp and sycl variants -/

theorem normal_pos (g : Georef) (hpol : 0 < g.polar_radius) (he2 : 0 ≤ g.eccentricity2)
    (c : ℝ) : 0 < g.normal c := by
  unfold normal
  apply div_pos hpol
  apply Real.sqrt_pos.2
  nlinarith [mul_self_nonneg c]

/-- The angle the openmp and sycl `geod2ecef` use for the point of longitude `180` under the
origin longitude `180` and scale `0.75`: it lies strictly between `0` and `π`. -/
theorem radian_origin_angle_bounds :
    0 < (180 * radian + (180 - 180 * radian) * (3 / 4)) * radian ∧
    (180 * radian + (180 - 180 * radian) * (3 / 4)) * radian < Real.pi := by
  have h3 := Real.pi_gt_three
  have h4 := Real.pi_le_four
  have hr : (180 * radian + (180 - 180 * radian) * (3 / 4)) * radian
      = (Real.pi / 4 + 135) * (Real.pi / 180) := by
    unfold radian
    ring
  rw [hr]
  constructor
  · positivity
  · nlinarith

/-- C11 evaluated on the code: with origin longitude `180`, origin latitude `0` and scale
`0.75`, the point of longitude `180`, latitude `0`, height `0` gets a positive `y` from the
openmp and sycl `geod2ecef` (longitude angle `(π + (180 - π) * 0.75) * radian`), whereas
the degree-centred longitude `(180 + (180 - 180) * 0.75) * radian = π`, used by the eigen3
variant, gives `y = 0`. -/
theorem C11_radian_origin_scaling :
    0 < ((Openmp.create ⟨180, 0, 0, 3 / 4⟩).geod2ecef ⟨180, 0, 0⟩).y ∧
    0 < ((Sycl.create ⟨180, 0, 0, 3 / 4⟩).geod2ecef ⟨180, 0, 0⟩).y ∧
    ((create ⟨⟨180, 0, 0⟩, 3 / 4⟩).geod2ecef ⟨180, 0, 0⟩).y = 0 := by
  obtain ⟨hL0, hL1⟩ := radian_origin_angle_bounds
  have hsin := Real.sin_pos_of_pos_of_lt_pi hL0 hL1
  have hB : ((0 : ℝ) * radian + (0 - 0 * radian) * (3 / 4)) * radian = 0 := by ring
  have hpolO : 0 < (Openmp.create ⟨180, 0, 0, 3 / 4⟩).polar_radius := by
    simp only [Openmp.create]
    norm_num
  have he2O : 0 ≤ (Openmp.create ⟨180, 0, 0, 3 / 4⟩).eccentricity2 := by
    simp only [Openmp.create]
    norm_num
  have hpolS : 0 < (Sycl.create ⟨180, 0, 0, 3 / 4⟩).polar_radius := by
    simp only [Sycl.create]
    norm_num
  have he2S : 0 ≤ (Sycl.create ⟨180, 0, 0, 3 / 4⟩).eccentricity2 := by
    simp only [Sycl.create]
    norm_num
  refine ⟨?_, ?_, ?_⟩
  · have hN := normal_pos (Openmp.create ⟨180, 0, 0, 3 / 4⟩) hpolO he2O 1
    show 0 < ((Openmp.create ⟨180, 0, 0, 3 / 4⟩).normal
        (Real.cos (((0 : ℝ) * radian + (0 - 0 * radian) * (3 / 4)) * radian)) + 0)
      * Real.cos (((0 : ℝ) * radian + (0 - 0 * radian) * (3 / 4)) * radian)
      * Real.sin ((180 * radian + (180 - 180 * radian) * (3 / 4)) * radian)
    rw [hB, Real.cos_zero, add_zero, mul_one]
    exact mul_pos hN hsin
  · have hN := normal_pos (Sycl.create ⟨180, 0, 0, 3 / 4⟩) hpolS he2S 1
    show 0 < ((Sycl.create ⟨180, 0, 0, 3 / 4⟩).normal
        (Real.cos (((0 : ℝ) * radian + (0 - 0 * radian) * (3 / 4)) * radian)) + 0)
      * Real.cos (((0 : ℝ) * radian + (0 - 0 * radian) * (3 / 4)) * radian)
      * Real.sin ((180 * radian + (180 - 180 * radian) * (3 / 4)) * radian)
    rw [hB, Real.cos_zero, add_zero, mul_one]
    exact mul_pos hN hsin
  · have hL : ((180 : ℝ) + (180 - 180) * (3 / 4)) * radian = Real.pi := by
      unfold radian
      ring
    show _ * Real.sin (((180 : ℝ) + (180 - 180) * (3 / 4)) * radian) = 0
    rw [hL, Real.sin_pi, mul_zero]

/-! ## The normal radius and the batch `atan2` helper -/

/-- C21 (the normal radius is the prime-vertical radius of curvature): for a Config with
positive scale and every latitude angle `B`, the expression
`polar_radius / sqrt (1 + eccentricity2 * cos B * cos B)` of `create`, `geod2ecef` and
`ecef2geod` equals `major_radius / sqrt (1 - eccentricity1 * sin B ^ 2)`, and at `B = 0` it
is `major_radius`. -/
theorem C21_normal_is_prime_vertical (config : Config) (_hs : 0 < config.scale_factor)
    (B : ℝ) :
    (create config).normal (Real.cos B)
      = (create config).major_radius
          / Real.sqrt (1 - (create config).eccentricity1 * Real.sin B ^ 2) ∧
    (create config).normal (Real.cos 0) = (create config).major_radius := by
  constructor
  · have hcs := Real.cos_sq_add_sin_sq B
    rw [create_normal_eq config _ _ hcs, create_eccentricity1_eq]
    congr 2
    linear_combination hcs
  · rw [Real.cos_zero]
    exact create_normal_equator config

theorem C21_normal_is_prime_vertical_witness :
    0 < Config.create.scale_factor ∧
    ((create Config.create).normal (Real.cos (Real.pi / 4))
      = (create Config.create).major_radius
          / Real.sqrt (1 - (create Config.create).eccentricity1 * Real.sin (Real.pi / 4) ^ 2) ∧
    (create Config.create).normal (Real.cos 0) = (create Config.create).major_radius) :=
  ⟨reference_scale_pos,
    C21_normal_is_prime_vertical Config.create reference_scale_pos (Real.pi / 4)⟩

/-- The scalar `atan2` is the polar angle of `(x, y)`: it lies in `(-π, π]` and, scaled by
`hypot x y`, its cosine and sine give back `x` and `y`. -/
theorem atan2_polar (y x : ℝ) :
    -Real.pi < atan2 y x ∧ atan2 y x ≤ Real.pi ∧
    hypot x y * Real.cos (atan2 y x) = x ∧ hypot x y * Real.sin (atan2 y x) = y := by
  have habs : Complex.abs ⟨x, y⟩ = hypot x y := by
    rw [Complex.abs_apply, Complex.normSq_mk]
    rfl
  refine ⟨Complex.neg_pi_lt_arg _, Complex.arg_le_pi _, ?_, ?_⟩
  · rw [← habs]
    exact Complex.abs_mul_cos_arg ⟨x, y⟩
  · rw [← habs]
    exact Complex.abs_mul_sin_arg ⟨x, y⟩

/-- C22 (batch `atan2` helper): at every index with `x ≠ 0` the helper
(`phi = atan (y / x)`, `phi - π` when `x < 0` and `y < 0`, `phi + π` when `x < 0` and
`y ≥ 0`, `phi` otherwise) returns the scalar `atan2 (y, x)`, the angle in `(-π, π]` of the
vector `(x, y)`. -/
theorem C22_batch_atan2_is_atan2 {n : ℕ} (y x : Batch n) (i : Fin n) (hx : x i ≠ 0) :
    atan2Array y x i
      = (if x i < 0 then
          (if y i < 0 then Real.arctan (y i / x i) - Real.pi
            else Real.arctan (y i / x i) + Real.pi)
        else Real.arctan (y i / x i)) ∧
    atan2Array y x i = atan2 (y i) (x i) ∧
    (-Real.pi < atan2Array y x i ∧ atan2Array y x i ≤ Real.pi) ∧
    hypot (x i) (y i) * Real.cos (atan2Array y x i) = x i ∧
    hypot (x i) (y i) * Real.sin (atan2Array y x i) = y i := by
  have h := atan2Array_eq_atan2 y x i hx
  obtain ⟨h1, h2, h3, h4⟩ := atan2_polar (y i) (x i)
  rw [h]
  exact ⟨(atan2_of_ne_zero hx (y i)), rfl, ⟨h1, h2⟩, h3, h4⟩

theorem C22_batch_atan2_is_atan2_witness :
    atan2Array (fun _ : Fin 2 => (1 : ℝ)) (fun _ => -1) 0
      = (if (-1 : ℝ) < 0 then
          (if (1 : ℝ) < 0 then Real.arctan (1 / -1) - Real.pi
            else Real.arctan (1 / -1) + Real.pi)
        else Real.arctan (1 / -1)) ∧
    atan2Array (fun _ : Fin 2 => (1 : ℝ)) (fun _ => -1) 0 = atan2 1 (-1) ∧
    (-Real.pi < atan2Array (fun _ : Fin 2 => (1 : ℝ)) (fun _ => -1) 0 ∧
      atan2Array (fun _ : Fin 2 => (1 : ℝ)) (fun _ => -1) 0 ≤ Real.pi) ∧
    hypot (-1) 1 * Real.cos (atan2Array (fun _ : Fin 2 => (1 : ℝ)) (fun _ => -1) 0) = -1 ∧
    hypot (-1) 1 * Real.sin (atan2Array (fun _ : Fin 2 => (1 : ℝ)) (fun _ => -1) 0) = 1 :=
  C22_batch_atan2_is_atan2 (fun _ : Fin 2 => (1 : ℝ)) (fun _ => -1) 0 (by norm_num)

end Theorems

end Offload
